import Mathlib

/-!
Verification development for the lazylang compiler core (lexer, parser,
semantic analyzer, C code generator).  Each C function of the repository is
shallowly embedded as an executable Lean definition carrying the same name
(up to namespacing); machine strings are Lean `String`s, NUL-terminated C
buffers are modelled by a `List Char` suffix where reading past the end
yields the terminator character.
-/

namespace Lazylang

/-! ## Token model (lexer.h) -/

inductive TokenType where
  | EOF | NEWLINE | INDENT | DEDENT
  | IDENT | INT | FLOAT | STRING
  | IF | ELSE | FOR | IN | STRUCT | MUT | PUB | IMPORT | TASK
  | RETURN | TRUE | FALSE | NULL
  | COLON | COMMA | EQUAL | ARROW | LPAREN | RPAREN | DOT
  | LBRACKET | RBRACKET | PLUS | MINUS | STAR | SLASH
  | EQEQ | BANGEQ | LT | LTE | GT | GTE
deriving DecidableEq

structure Token where
  type : TokenType
  lexeme : String
  line : Nat
  column : Nat
deriving DecidableEq

/-! ## Lexer state (struct Lexer in lexer.c)

`rest` is the unread suffix of the NUL-terminated source buffer; reading at
the end of the list models reading the terminator. `indentStack` keeps the
top of the C `indent_stack` array at its head; the bottom sentinel 0 pushed
by `lexer_create` is the last element. -/

structure Lexer where
  rest : List Char
  line : Nat
  col : Nat
  indentStack : List Nat
  pendingDedents : Nat
  atLineStart : Bool
deriving DecidableEq

def lexer_create (source : String) : Lexer :=
  { rest := source.data, line := 1, col := 1,
    indentStack := [0], pendingDedents := 0, atLineStart := true }

def make_token (line col : Nat) (type : TokenType) (lexeme : String) : Token :=
  { type := type, lexeme := lexeme, line := line, column := col }

/-- ctype.h classification used by the lexer (default C locale). -/
def cIsDigit (c : Char) : Bool := '0' ≤ c && c ≤ '9'

def cIsAlpha (c : Char) : Bool := ('a' ≤ c && c ≤ 'z') || ('A' ≤ c && c ≤ 'Z')

def cIsAlnum (c : Char) : Bool := cIsAlpha c || cIsDigit c

def cIsPrint (c : Char) : Bool := ' ' ≤ c && c.toNat ≤ 126

/-- `count_indent`: consume leading spaces/tabs, one unit each. -/
def count_indent_chars : List Char → Nat × List Char
  | c :: r =>
    if c = ' ' ∨ c = '\t' then
      let (n, rest) := count_indent_chars r
      (n + 1, rest)
    else (0, c :: r)
  | [] => (0, [])

/-- The dedent loop of `lexer_next_token`:
`while (indent_top > 0 && indent < stack[indent_top]) { indent_top--; pending++ }`.
Returns how many levels were popped together with the remaining stack. -/
def pop_indents (indent : Nat) : List Nat → Nat × List Nat
  | c :: rest =>
    if rest ≠ [] ∧ indent < c then
      let (n, s) := pop_indents indent rest
      (n + 1, s)
    else (0, c :: rest)
  | [] => (0, [])

/-- Identifier scan (`identifier`): consume `isalnum` and underscore chars. -/
def ident_chars : List Char → List Char × List Char
  | c :: r =>
    if cIsAlnum c ∨ c = '_' then
      let (acc, rest) := ident_chars r
      (c :: acc, rest)
    else ([], c :: r)
  | [] => ([], [])

/-- Digit run used by the number scan. -/
def digit_chars : List Char → List Char × List Char
  | c :: r =>
    if cIsDigit c then
      let (acc, rest) := digit_chars r
      (c :: acc, rest)
    else ([], c :: r)
  | [] => ([], [])

/-- Keyword table of `identifier` (the `KW` macro applications, in their
source order; the first exact match wins, otherwise the token is an
identifier). -/
def keyword_table : List (String × TokenType) :=
  [("if", .IF), ("else", .ELSE), ("for", .FOR), ("in", .IN),
   ("struct", .STRUCT), ("mut", .MUT), ("pub", .PUB), ("import", .IMPORT),
   ("task", .TASK), ("return", .RETURN), ("true", .TRUE), ("false", .FALSE),
   ("null", .NULL)]

def keyword_type (s : String) : TokenType :=
  match keyword_table.find? (fun kv => kv.1 = s) with
  | some kv => kv.2
  | none => .IDENT

/-- String-literal scan: consume up to the closing quote or the terminator,
tracking line/column updates of `advance` (the content may contain
newlines).  Returns (content, line, col, rest starting at the quote or at
the terminator). -/
def string_chars (line col : Nat) : List Char → List Char × Nat × Nat × List Char
  | [] => ([], line, col, [])
  | c :: r =>
    if c = '"' ∨ c = '\x00' then ([], line, col, c :: r)
    else
      let ln := if c = '\n' then line + 1 else line
      let co := if c = '\n' then 1 else col + 1
      let (content, lf, cf, rest) := string_chars ln co r
      (c :: content, lf, cf, rest)

/-- Result component of a lexer call: either a token and successor state or
an abort (the C code prints the message and calls `exit(1)`). -/
abbrev LexResult := Except String (Token × Lexer)

/-- Rebuild the lexer record after the scan loop consumed characters. -/
def lexer_after (stack : List Nat) (pending : Nat) (rest : List Char)
    (line col : Nat) (als : Bool) : Lexer :=
  { rest := rest, line := line, col := col,
    indentStack := stack, pendingDedents := pending, atLineStart := als }

/-- One-token or one-error outcome of processing a single character of the
scan loop; `skip` models the loop falling through the `switch` (blanks,
`'\r'`, and characters with no case) and continuing with the next
character. -/
inductive ScanStep where
  | tok (t : Token) (l' : Lexer)
  | err (e : String)
  | skip

/-- Identifier/keyword case of the scan loop (`identifier` in lexer.c):
the first character was already consumed. -/
def lexer_ident_step (stack : List Nat) (pending : Nat)
    (line col : Nat) (c : Char) (r : List Char) : ScanStep :=
  let (acc, rest) := ident_chars r
  let text : String := ⟨c :: acc⟩
  let col := col + 1 + acc.length
  .tok (make_token line col (keyword_type text) text)
       (lexer_after stack pending rest line col false)

/-- Number case of the scan loop: digits, then an optional embedded
`'.'` followed by more digits makes a FLOAT. -/
def lexer_number_step (stack : List Nat) (pending : Nat)
    (line col : Nat) (c : Char) (r : List Char) : ScanStep :=
  let (acc, rest) := digit_chars r
  let col := col + 1 + acc.length
  match rest with
  | '.' :: r2 =>
    let (acc2, rest2) := digit_chars r2
    let text : String := ⟨(c :: acc) ++ '.' :: acc2⟩
    let col := col + 1 + acc2.length
    .tok (make_token line col .FLOAT text)
         (lexer_after stack pending rest2 line col false)
  | _ =>
    .tok (make_token line col .INT ⟨c :: acc⟩)
         (lexer_after stack pending rest line col false)

/-- String-literal case of the scan loop; the lexeme excludes the quotes.
When the literal is unterminated, C computes `pos - start - 1`, dropping
one character. -/
def lexer_string_step (stack : List Nat) (pending : Nat)
    (line col : Nat) (r : List Char) : ScanStep :=
  let (content, ln, co, rest) := string_chars line (col + 1) r
  match rest with
  | '"' :: r2 =>
    .tok (make_token ln (co + 1) .STRING ⟨content⟩)
         (lexer_after stack pending r2 ln (co + 1) false)
  | _ =>
    .tok (make_token ln co .STRING ⟨content.dropLast⟩)
         (lexer_after stack pending rest ln co false)

/-- First half of the symbol `switch` (`:` `,` `=` `->` `+` `*` `/`). -/
def lexer_symbol_step1 (stack : List Nat) (pending : Nat)
    (line col : Nat) (c : Char) (r : List Char) : ScanStep :=
  if c = ':' then
    .tok (make_token line (col + 1) .COLON ":")
         (lexer_after stack pending r line (col + 1) false)
  else if c = ',' then
    .tok (make_token line (col + 1) .COMMA ",")
         (lexer_after stack pending r line (col + 1) false)
  else if c = '=' then
    match r with
    | '=' :: r2 =>
      .tok (make_token line (col + 2) .EQEQ "==")
           (lexer_after stack pending r2 line (col + 2) false)
    | _ =>
      .tok (make_token line (col + 1) .EQUAL "=")
           (lexer_after stack pending r line (col + 1) false)
  else if c = '-' then
    match r with
    | '>' :: r2 =>
      .tok (make_token line (col + 2) .ARROW "->")
           (lexer_after stack pending r2 line (col + 2) false)
    | _ =>
      .tok (make_token line (col + 1) .MINUS "-")
           (lexer_after stack pending r line (col + 1) false)
  else if c = '+' then
    .tok (make_token line (col + 1) .PLUS "+")
         (lexer_after stack pending r line (col + 1) false)
  else if c = '*' then
    .tok (make_token line (col + 1) .STAR "*")
         (lexer_after stack pending r line (col + 1) false)
  else
    .tok (make_token line (col + 1) .SLASH "/")
         (lexer_after stack pending r line (col + 1) false)

/-- Second half of the symbol `switch` (`!=` with its error case, `<` `<=`
`>` `>=` `(` `)` `.` `[` `]`), and the silent skip of a character with no
case. -/
def lexer_symbol_step2 (stack : List Nat) (pending : Nat)
    (line col : Nat) (c : Char) (r : List Char) : ScanStep :=
  if c = '!' then
    match r with
    | '=' :: r2 =>
      .tok (make_token line (col + 2) .BANGEQ "!=")
           (lexer_after stack pending r2 line (col + 2) false)
    | _ =>
      .err ("Unexpected '!' at line " ++ toString line ++ ", column "
            ++ toString (col + 1))
  else if c = '<' then
    match r with
    | '=' :: r2 =>
      .tok (make_token line (col + 2) .LTE "<=")
           (lexer_after stack pending r2 line (col + 2) false)
    | _ =>
      .tok (make_token line (col + 1) .LT "<")
           (lexer_after stack pending r line (col + 1) false)
  else if c = '>' then
    match r with
    | '=' :: r2 =>
      .tok (make_token line (col + 2) .GTE ">=")
           (lexer_after stack pending r2 line (col + 2) false)
    | _ =>
      .tok (make_token line (col + 1) .GT ">")
           (lexer_after stack pending r line (col + 1) false)
  else if c = '(' then
    .tok (make_token line (col + 1) .LPAREN "(")
         (lexer_after stack pending r line (col + 1) false)
  else if c = ')' then
    .tok (make_token line (col + 1) .RPAREN ")")
         (lexer_after stack pending r line (col + 1) false)
  else if c = '.' then
    .tok (make_token line (col + 1) .DOT ".")
         (lexer_after stack pending r line (col + 1) false)
  else if c = '[' then
    .tok (make_token line (col + 1) .LBRACKET "[")
         (lexer_after stack pending r line (col + 1) false)
  else if c = ']' then
    .tok (make_token line (col + 1) .RBRACKET "]")
         (lexer_after stack pending r line (col + 1) false)
  else
    -- no switch case matched: the loop silently continues
    .skip

/-- Body of the `for (;;)` loop of `lexer_next_token` for one non-NUL
character `c` already consumed by `advance`. -/
def lexer_scan_char (stack : List Nat) (pending : Nat)
    (line col : Nat) (c : Char) (r : List Char) : ScanStep :=
  if c = ' ' ∨ c = '\t' ∨ c = '\r' then
    .skip
  else if c = '\n' then
    .tok (make_token (line + 1) 1 .NEWLINE "\n")
         (lexer_after stack pending r (line + 1) 1 true)
  else if cIsAlpha c ∨ c = '_' then
    lexer_ident_step stack pending line col c r
  else if cIsDigit c then
    lexer_number_step stack pending line col c r
  else if c = '"' then
    lexer_string_step stack pending line col r
  else if c = ':' ∨ c = ',' ∨ c = '=' ∨ c = '-' ∨ c = '+' ∨ c = '*' ∨ c = '/' then
    lexer_symbol_step1 stack pending line col c r
  else
    lexer_symbol_step2 stack pending line col c r

/-- The character-consuming loop of `lexer_next_token` (the `for (;;)`
after the indentation handling).  `stack`/`pending` ride along unchanged
except in the end-of-input branch, which drains one DEDENT per remaining
stack level before emitting EOF. -/
def lexer_scan_chars (stack : List Nat) (pending : Nat)
    (line col : Nat) : List Char → LexResult
  | [] =>
    -- advance() returned the terminator: per-level DEDENT drain, then EOF
    if stack.length > 1 then
      .ok (make_token line (col + 1) .DEDENT "",
           lexer_after stack.tail pending [] line (col + 1) false)
    else
      .ok (make_token line (col + 1) .EOF "",
           lexer_after stack pending [] line (col + 1) false)
  | c :: r =>
    if c = '\x00' then
      -- an embedded NUL behaves like the terminator but leaves `r` behind
      if stack.length > 1 then
        .ok (make_token line (col + 1) .DEDENT "",
             lexer_after stack.tail pending r line (col + 1) false)
      else
        .ok (make_token line (col + 1) .EOF "",
             lexer_after stack pending r line (col + 1) false)
    else
      match lexer_scan_char stack pending line col c r with
      | .tok t l' => .ok (t, l')
      | .err e => .error e
      | .skip => lexer_scan_chars stack pending line (col + 1) r

/-- `lexer_next_token` (lexer.c).  Pending DEDENTs drain one per call;
at a line start the indentation stack is adjusted; otherwise characters are
scanned. -/
def lexer_next_token (l : Lexer) : LexResult :=
  if l.pendingDedents > 0 then
    .ok (make_token l.line l.col .DEDENT "",
         { l with pendingDedents := l.pendingDedents - 1 })
  else if l.atLineStart then
    let l1 : Lexer := { l with atLineStart := false }
    let (indent, rest) := count_indent_chars l1.rest
    let l2 : Lexer := { l1 with rest := rest, col := l1.col + indent }
    let current := l2.indentStack.headD 0
    if indent > current then
      .ok (make_token l2.line l2.col .INDENT "",
           { l2 with indentStack := indent :: l2.indentStack })
    else if indent < current then
      let (popped, stack) := pop_indents indent l2.indentStack
      if indent ≠ stack.headD 0 then
        .error ("Indentation error at line " ++ toString l2.line)
      else
        .ok (make_token l2.line l2.col .DEDENT "",
             { l2 with indentStack := stack, pendingDedents := popped - 1 })
    else
      lexer_scan_chars l2.indentStack l2.pendingDedents l2.line l2.col l2.rest
  else
    lexer_scan_chars l.indentStack l.pendingDedents l.line l.col l.rest

/-- Drive the lexer to its EOF token, collecting the tokens emitted before
EOF (fuel-bounded; a compilation performs exactly this call sequence). -/
def lexer_run (fuel : Nat) (l : Lexer) : Except String (List Token) :=
  match fuel with
  | 0 => .error "out of fuel"
  | fuel + 1 =>
    match lexer_next_token l with
    | .error e => .error e
    | .ok (t, l') =>
      if t.type = .EOF then .ok []
      else
        match lexer_run fuel l' with
        | .error e => .error e
        | .ok ts => .ok (t :: ts)

/-- Tokens of the whole input including the final EOF token (used to feed
the parser). -/
def lexer_run_eof (fuel : Nat) (l : Lexer) : Except String (List Token) :=
  match fuel with
  | 0 => .error "out of fuel"
  | fuel + 1 =>
    match lexer_next_token l with
    | .error e => .error e
    | .ok (t, l') =>
      if t.type = .EOF then .ok [t]
      else
        match lexer_run_eof fuel l' with
        | .error e => .error e
        | .ok ts => .ok (t :: ts)

/-! ## AST (ast.h)

Tokens embedded in nodes are the representative tokens stored by the
constructors in ast.c (name token for declarations and assignments, the
left parenthesis for calls, the expression token for expression
statements). -/

inductive LiteralKind where
  | INT | FLOAT | STRING | BOOL | NULL
deriving DecidableEq

inductive Expr where
  | literal (token : Token) (kind : LiteralKind) (text : Option String)
      (boolValue : Bool)
  | identifier (token : Token) (name : String)
  | call (token : Token) (callee : Expr) (args : List Expr)
  | binary (token : Token) (op : TokenType) (left right : Expr)

inductive Stmt where
  | varDecl (token : Token) (isMutable : Bool) (name typeName : String)
      (init : Option Expr)
  | assign (token : Token) (target : String) (value : Expr)
  | ifStmt (token : Token) (condition : Expr) (thenBlock : List Stmt)
      (elseBlock : Option (List Stmt))
  | forStmt (token : Token) (iterator : String) (iterable : Expr)
      (body : List Stmt)
  | returnStmt (token : Token) (value : Option Expr)
  | exprStmt (token : Token) (expr : Option Expr)

structure FunctionParam where
  name : String
  type_name : String
  token : Token

structure FunctionDecl where
  token : Token
  is_public : Bool
  name : String
  params : List FunctionParam
  return_type : Option String
  body : Option (List Stmt)

structure StructField where
  name : String
  type_name : String
  token : Token

structure StructDecl where
  token : Token
  is_public : Bool
  name : String
  fields : List StructField

inductive Decl where
  | function (fn : FunctionDecl)
  | structure' (s : StructDecl)

structure ASTProgram where
  imports : List (List String)
  declarations : List Decl

def Expr.token' : Expr → Token
  | .literal t _ _ _ => t
  | .identifier t _ => t
  | .call t _ _ => t
  | .binary t _ _ _ => t

/-! ## Parser (parser.c)

The C parser pulls tokens lazily from the lexer through a two-token
buffer (`current`, `next`); since the lexer is a deterministic state
machine and the parser never rewinds it, we model the stream as the
pre-computed token list, `current` being the head.  Tokens read past the
final EOF token are padding EOF tokens (never observed by a successful
parse beyond their type). -/

def padEof : Token := { type := .EOF, lexeme := "", line := 0, column := 0 }

structure Parser where
  previous : Token
  toks : List Token

structure ParseError where
  token : Token
  message : String
deriving DecidableEq

def parser_init (tokens : List Token) : Parser :=
  { previous := padEof, toks := tokens }

def Parser.current (p : Parser) : Token := p.toks.headD padEof

def Parser.next (p : Parser) : Token := p.toks.tail.headD padEof

def parser_advance (p : Parser) : Parser :=
  { previous := p.current, toks := p.toks.tail }

def parser_check (p : Parser) (type : TokenType) : Bool :=
  p.current.type = type

/-- `parser_match`: advance when the current token has the given type. -/
def parser_match (p : Parser) (type : TokenType) : Bool × Parser :=
  if parser_check p type then (true, parser_advance p) else (false, p)

/-- `parser_error` prints `[line L:C] Parse error: msg` and exits. -/
def parser_error (token : Token) (message : String) : ParseError :=
  { token := token, message := message }

def parser_consume (p : Parser) (type : TokenType) (message : String) :
    Except ParseError (Token × Parser) :=
  if parser_check p type then
    let p' := parser_advance p
    .ok (p'.previous, p')
  else
    .error (parser_error p.current message)

def skip_newlines_toks (prev : Token) : List Token → Token × List Token
  | t :: rest =>
    if t.type = .NEWLINE then skip_newlines_toks t rest else (prev, t :: rest)
  | [] => (prev, [])

def parser_skip_newlines (p : Parser) : Parser :=
  let (prev, toks) := skip_newlines_toks p.previous p.toks
  { previous := prev, toks := toks }

def parser_require_line_break (p : Parser) (message : String) :
    Except ParseError Parser :=
  let (matched, p1) := parser_match p .NEWLINE
  if matched then .ok (parser_skip_newlines p1)
  else if parser_check p .DEDENT ∨ parser_check p .EOF then .ok p
  else .error (parser_error p.current message)

def token_is_terminator (type : TokenType) (terminators : List TokenType) : Bool :=
  terminators.contains type

/-- Loop body of `parser_collect_type`: concatenate token lexemes until a
terminator at bracket depth 0 (or EOF).  Bracket depth is updated before
the allowed-token check; a token outside the allowed set is an error only
when the bracket depth is 0. -/
def parser_collect_type_loop (terminators : List TokenType) (builder : String)
    (bracket_depth : Nat) (collected : Bool) (prev : Token) :
    List Token → Except ParseError (String × Bool × Parser)
  | [] =>
    -- current is a padding EOF: the loop breaks
    .ok (builder, collected, { previous := prev, toks := [] })
  | t :: rest =>
    if t.type = .EOF then
      .ok (builder, collected, { previous := prev, toks := t :: rest })
    else
      let is_terminator := token_is_terminator t.type terminators
      if (t.type = .NEWLINE ∨ t.type = .DEDENT) ∧ bracket_depth = 0 then
        if ¬is_terminator then
          .error (parser_error t "unexpected line break in type")
        else
          .ok (builder, collected, { previous := prev, toks := t :: rest })
      else if is_terminator ∧ bracket_depth = 0 then
        .ok (builder, collected, { previous := prev, toks := t :: rest })
      else
        match
          (if t.type = .LBRACKET then .ok (bracket_depth + 1)
           else if t.type = .RBRACKET then
             (if bracket_depth = 0 then
               .error (parser_error t "unmatched ']' in type")
             else .ok (bracket_depth - 1))
           else .ok bracket_depth : Except ParseError Nat) with
        | .error e => .error e
        | .ok depth' =>
          if ¬(t.type = .IDENT ∨ t.type = .NULL ∨ t.type = .COMMA ∨
               t.type = .LBRACKET ∨ t.type = .RBRACKET ∨ t.type = .DOT) ∧
             depth' = 0 then
            .error (parser_error t "unexpected token in type")
          else
            parser_collect_type_loop terminators (builder ++ t.lexeme) depth'
              true t rest

def parser_collect_type (p : Parser) (terminators : List TokenType) :
    Except ParseError (String × Parser) :=
  match parser_collect_type_loop terminators "" 0 false p.previous p.toks with
  | .error e => .error e
  | .ok (builder, collected, p') =>
    if ¬collected then .error (parser_error p'.current "expected type name")
    else .ok (builder, p')

/-- Abort marker for exhausted fuel (never reached by an actual parse with
sufficient fuel). -/
def parserOutOfFuel : ParseError := parser_error padEof "out of fuel"

mutual

def parse_program_loop (fuel : Nat) (p : Parser) (accepting_imports : Bool)
    (imports : List (List String)) (decls : List Decl) :
    Except ParseError ASTProgram :=
  match fuel with
  | 0 => .error parserOutOfFuel
  | fuel + 1 =>
    if parser_check p .EOF then
      .ok { imports := imports, declarations := decls }
    else if parser_check p .IMPORT then
      if ¬accepting_imports then
        .error (parser_error p.current "imports must appear before declarations")
      else
        match parse_import fuel p with
        | .error e => .error e
        | .ok (seg, p) =>
          parse_program_loop fuel (parser_skip_newlines p) accepting_imports
            (imports ++ [seg]) decls
    else
      match parse_top_level_decl fuel p with
      | .error e => .error e
      | .ok (d, p) =>
        parse_program_loop fuel (parser_skip_newlines p) false imports
          (decls ++ [d])

def parse_import (fuel : Nat) (p : Parser) :
    Except ParseError (List String × Parser) :=
  match fuel with
  | 0 => .error parserOutOfFuel
  | fuel + 1 =>
    match parser_consume p .IMPORT "expected 'import'" with
    | .error e => .error e
    | .ok (_, p) => parse_import_segments fuel p []

def parse_import_segments (fuel : Nat) (p : Parser) (acc : List String) :
    Except ParseError (List String × Parser) :=
  match fuel with
  | 0 => .error parserOutOfFuel
  | fuel + 1 =>
    match parser_consume p .IDENT "expected identifier in import path" with
    | .error e => .error e
    | .ok (segment, p) =>
      let acc := acc ++ [segment.lexeme]
      let (dot, p) := parser_match p .DOT
      if dot then parse_import_segments fuel p acc
      else
        match parser_require_line_break p "expected newline after import statement" with
        | .error e => .error e
        | .ok p => .ok (acc, p)

def parse_top_level_decl (fuel : Nat) (p : Parser) :
    Except ParseError (Decl × Parser) :=
  match fuel with
  | 0 => .error parserOutOfFuel
  | fuel + 1 =>
    let (is_public, p) := parser_match p .PUB
    if parser_check p .STRUCT then
      match parse_struct_decl fuel p is_public with
      | .error e => .error e
      | .ok (s, p) => .ok (.structure' s, p)
    else
      match parser_consume p .IDENT "expected identifier for declaration" with
      | .error e => .error e
      | .ok (name_token, p) =>
        match parse_function_decl fuel p is_public name_token with
        | .error e => .error e
        | .ok (fn, p) => .ok (.function fn, p)

def parse_function_decl (fuel : Nat) (p : Parser) (is_public : Bool)
    (name_token : Token) : Except ParseError (FunctionDecl × Parser) :=
  match fuel with
  | 0 => .error parserOutOfFuel
  | fuel + 1 =>
    match parse_function_params fuel p with
    | .error e => .error e
    | .ok (params, return_type, p) =>
      match parse_block fuel p with
      | .error e => .error e
      | .ok (body, p) =>
        .ok ({ token := name_token, is_public := is_public,
               name := name_token.lexeme, params := params,
               return_type := some return_type, body := some body }, p)

def parse_function_params (fuel : Nat) (p : Parser) :
    Except ParseError (List FunctionParam × String × Parser) :=
  match fuel with
  | 0 => .error parserOutOfFuel
  | fuel + 1 =>
    match parser_consume p .COLON "expected ':' after function name" with
    | .error e => .error e
    | .ok (_, p) =>
    match parser_consume p .LPAREN "expected '(' before parameter type list" with
    | .error e => .error e
    | .ok (_, p) =>
    match
      (if parser_check p .RPAREN then .ok ([], p)
       else parse_param_types fuel p [] :
         Except ParseError (List String × Parser)) with
    | .error e => .error e
    | .ok (type_strings, p) =>
    match parser_consume p .RPAREN "expected ')' after parameter types" with
    | .error e => .error e
    | .ok (_, p) =>
    match parser_consume p .ARROW "expected '->' before return type" with
    | .error e => .error e
    | .ok (_, p) =>
    match parser_collect_type p [.EQUAL] with
    | .error e => .error e
    | .ok (return_type, p) =>
    match parser_consume p .EQUAL "expected '=' before parameter names" with
    | .error e => .error e
    | .ok (_, p) =>
    match parser_consume p .LPAREN "expected '(' before parameter names" with
    | .error e => .error e
    | .ok (_, p) =>
    match
      (if parser_check p .RPAREN then .ok ([], p)
       else parse_param_names fuel p type_strings 0 [] :
         Except ParseError (List FunctionParam × Parser)) with
    | .error e => .error e
    | .ok (params, p) =>
    match parser_consume p .RPAREN "expected ')' after parameter names" with
    | .error e => .error e
    | .ok (_, p) =>
      if params.length ≠ type_strings.length then
        .error (parser_error p.current "mismatched parameter types and names")
      else
        .ok (params, return_type, p)

def parse_param_types (fuel : Nat) (p : Parser) (acc : List String) :
    Except ParseError (List String × Parser) :=
  match fuel with
  | 0 => .error parserOutOfFuel
  | fuel + 1 =>
    match parser_collect_type p [.COMMA, .RPAREN] with
    | .error e => .error e
    | .ok (type_name, p) =>
      let acc := acc ++ [type_name]
      let (comma, p) := parser_match p .COMMA
      if comma then parse_param_types fuel p acc else .ok (acc, p)

def parse_param_names (fuel : Nat) (p : Parser) (type_strings : List String)
    (index : Nat) (acc : List FunctionParam) :
    Except ParseError (List FunctionParam × Parser) :=
  match fuel with
  | 0 => .error parserOutOfFuel
  | fuel + 1 =>
    match parser_consume p .IDENT "expected parameter name" with
    | .error e => .error e
    | .ok (name_token, p) =>
      if h : index < type_strings.length then
        let type_name := type_strings.get ⟨index, h⟩
        let acc := acc ++ [{ name := name_token.lexeme,
                             type_name := type_name, token := name_token }]
        let (comma, p) := parser_match p .COMMA
        if comma then parse_param_names fuel p type_strings (index + 1) acc
        else .ok (acc, p)
      else
        .error (parser_error name_token "missing parameter type")

def parse_struct_decl (fuel : Nat) (p : Parser) (is_public : Bool) :
    Except ParseError (StructDecl × Parser) :=
  match fuel with
  | 0 => .error parserOutOfFuel
  | fuel + 1 =>
    match parser_consume p .STRUCT "expected 'struct'" with
    | .error e => .error e
    | .ok (_, p) =>
    match parser_consume p .IDENT "expected struct name" with
    | .error e => .error e
    | .ok (name_token, p) =>
    match parser_consume p .NEWLINE "expected newline after struct name" with
    | .error e => .error e
    | .ok (_, p) =>
    match parser_consume p .INDENT "expected indent before struct body" with
    | .error e => .error e
    | .ok (_, p) =>
    match parse_struct_fields fuel (parser_skip_newlines p) [] with
    | .error e => .error e
    | .ok (fields, p) =>
    match parser_consume p .DEDENT "expected dedent after struct body" with
    | .error e => .error e
    | .ok (_, p) =>
      .ok ({ token := name_token, is_public := is_public,
             name := name_token.lexeme, fields := fields }, p)

def parse_struct_fields (fuel : Nat) (p : Parser) (acc : List StructField) :
    Except ParseError (List StructField × Parser) :=
  match fuel with
  | 0 => .error parserOutOfFuel
  | fuel + 1 =>
    if ¬parser_check p .DEDENT ∧ ¬parser_check p .EOF then
      match parser_consume p .IDENT "expected field name" with
      | .error e => .error e
      | .ok (field_name, p) =>
      match parser_consume p .COLON "expected ':' after field name" with
      | .error e => .error e
      | .ok (_, p) =>
      match parser_collect_type p [.NEWLINE, .DEDENT] with
      | .error e => .error e
      | .ok (type_name, p) =>
      match parser_require_line_break p "expected newline after struct field" with
      | .error e => .error e
      | .ok p =>
        parse_struct_fields fuel (parser_skip_newlines p)
          (acc ++ [{ name := field_name.lexeme, type_name := type_name,
                     token := field_name }])
    else .ok (acc, p)

def parse_block (fuel : Nat) (p : Parser) :
    Except ParseError (List Stmt × Parser) :=
  match fuel with
  | 0 => .error parserOutOfFuel
  | fuel + 1 =>
    match parser_consume p .NEWLINE "expected newline before block" with
    | .error e => .error e
    | .ok (_, p) =>
    match parser_consume p .INDENT "expected indentation to start block" with
    | .error e => .error e
    | .ok (_, p) =>
    match parse_block_stmts fuel (parser_skip_newlines p) [] with
    | .error e => .error e
    | .ok (stmts, p) =>
    match parser_consume p .DEDENT "expected dedent to close block" with
    | .error e => .error e
    | .ok (_, p) => .ok (stmts, p)

def parse_block_stmts (fuel : Nat) (p : Parser) (acc : List Stmt) :
    Except ParseError (List Stmt × Parser) :=
  match fuel with
  | 0 => .error parserOutOfFuel
  | fuel + 1 =>
    if ¬parser_check p .DEDENT ∧ ¬parser_check p .EOF then
      match parse_statement fuel p with
      | .error e => .error e
      | .ok (stmt, p) =>
        parse_block_stmts fuel (parser_skip_newlines p) (acc ++ [stmt])
    else .ok (acc, p)

def parse_statement (fuel : Nat) (p : Parser) :
    Except ParseError (Stmt × Parser) :=
  match fuel with
  | 0 => .error parserOutOfFuel
  | fuel + 1 =>
    let (m_if, p1) := parser_match p .IF
    if m_if then parse_if_stmt fuel p1
    else
      let (m_for, p2) := parser_match p .FOR
      if m_for then parse_for_stmt fuel p2
      else
        let (m_mut, p3) := parser_match p .MUT
        if m_mut then parse_var_decl fuel p3 true
        else
          let (m_ret, p4) := parser_match p .RETURN
          if m_ret then parse_return fuel p4
          else
            if parser_check p .IDENT then
              if p.next.type = .COLON then parse_var_decl fuel p false
              else if p.next.type = .EQUAL then parse_assignment fuel p
              else parse_expr_stmt fuel p
            else parse_expr_stmt fuel p

def parse_if_stmt (fuel : Nat) (p : Parser) :
    Except ParseError (Stmt × Parser) :=
  match fuel with
  | 0 => .error parserOutOfFuel
  | fuel + 1 =>
    let if_token := p.previous
    match parse_expression fuel p with
    | .error e => .error e
    | .ok (condition, p) =>
    match parse_block fuel p with
    | .error e => .error e
    | .ok (then_block, p) =>
      let p := parser_skip_newlines p
      let (m_else, p) := parser_match p .ELSE
      if m_else then
        match parse_block fuel p with
        | .error e => .error e
        | .ok (else_block, p) =>
          .ok (.ifStmt if_token condition then_block (some else_block), p)
      else
        .ok (.ifStmt if_token condition then_block none, p)

def parse_for_stmt (fuel : Nat) (p : Parser) :
    Except ParseError (Stmt × Parser) :=
  match fuel with
  | 0 => .error parserOutOfFuel
  | fuel + 1 =>
    let for_token := p.previous
    match parser_consume p .IDENT "expected loop iterator name" with
    | .error e => .error e
    | .ok (iterator, p) =>
    match parser_consume p .IN "expected 'in' after loop iterator" with
    | .error e => .error e
    | .ok (_, p) =>
    match parse_expression fuel p with
    | .error e => .error e
    | .ok (iterable, p) =>
    match parse_block fuel p with
    | .error e => .error e
    | .ok (body, p) =>
      .ok (.forStmt for_token iterator.lexeme iterable body, p)

def parse_var_decl (fuel : Nat) (p : Parser) (is_mutable : Bool) :
    Except ParseError (Stmt × Parser) :=
  match fuel with
  | 0 => .error parserOutOfFuel
  | fuel + 1 =>
    match parser_consume p .IDENT
        (if is_mutable then "expected identifier after 'mut'"
         else "expected identifier in variable declaration") with
    | .error e => .error e
    | .ok (name_token, p) =>
    match parser_consume p .COLON "expected ':' in variable declaration" with
    | .error e => .error e
    | .ok (_, p) =>
    match parser_collect_type p [.EQUAL] with
    | .error e => .error e
    | .ok (type_name, p) =>
    match parser_consume p .EQUAL "expected '=' before initializer" with
    | .error e => .error e
    | .ok (_, p) =>
    match parse_expression fuel p with
    | .error e => .error e
    | .ok (initializer, p) =>
    match parser_require_line_break p "expected newline after variable declaration" with
    | .error e => .error e
    | .ok p =>
      .ok (.varDecl name_token is_mutable name_token.lexeme type_name
             (some initializer), p)

def parse_assignment (fuel : Nat) (p : Parser) :
    Except ParseError (Stmt × Parser) :=
  match fuel with
  | 0 => .error parserOutOfFuel
  | fuel + 1 =>
    match parser_consume p .IDENT "expected identifier for assignment" with
    | .error e => .error e
    | .ok (name_token, p) =>
    match parser_consume p .EQUAL "expected '=' in assignment" with
    | .error e => .error e
    | .ok (_, p) =>
    match parse_expression fuel p with
    | .error e => .error e
    | .ok (value, p) =>
    match parser_require_line_break p "expected newline after assignment" with
    | .error e => .error e
    | .ok p => .ok (.assign name_token name_token.lexeme value, p)

def parse_return (fuel : Nat) (p : Parser) :
    Except ParseError (Stmt × Parser) :=
  match fuel with
  | 0 => .error parserOutOfFuel
  | fuel + 1 =>
    let return_token := p.previous
    if ¬parser_check p .NEWLINE ∧ ¬parser_check p .DEDENT ∧
       ¬parser_check p .EOF then
      match parse_expression fuel p with
      | .error e => .error e
      | .ok (value, p) =>
      match parser_require_line_break p "expected newline after return" with
      | .error e => .error e
      | .ok p => .ok (.returnStmt return_token (some value), p)
    else
      match parser_require_line_break p "expected newline after return" with
      | .error e => .error e
      | .ok p => .ok (.returnStmt return_token none, p)

def parse_expr_stmt (fuel : Nat) (p : Parser) :
    Except ParseError (Stmt × Parser) :=
  match fuel with
  | 0 => .error parserOutOfFuel
  | fuel + 1 =>
    match parse_expression fuel p with
    | .error e => .error e
    | .ok (expr, p) =>
    match parser_require_line_break p "expected newline after expression" with
    | .error e => .error e
    | .ok p => .ok (.exprStmt expr.token' (some expr), p)

def parse_expression (fuel : Nat) (p : Parser) :
    Except ParseError (Expr × Parser) :=
  match fuel with
  | 0 => .error parserOutOfFuel
  | fuel + 1 => parse_equality fuel p

def parse_equality (fuel : Nat) (p : Parser) :
    Except ParseError (Expr × Parser) :=
  match fuel with
  | 0 => .error parserOutOfFuel
  | fuel + 1 =>
    match parse_comparison fuel p with
    | .error e => .error e
    | .ok (expr, p) => parse_equality_loop fuel expr p

def parse_equality_loop (fuel : Nat) (expr : Expr) (p : Parser) :
    Except ParseError (Expr × Parser) :=
  match fuel with
  | 0 => .error parserOutOfFuel
  | fuel + 1 =>
    if parser_check p .EQEQ ∨ parser_check p .BANGEQ then
      let op_token := p.current
      let p := parser_advance p
      match parse_comparison fuel p with
      | .error e => .error e
      | .ok (right, p) =>
        parse_equality_loop fuel (.binary op_token op_token.type expr right) p
    else .ok (expr, p)

def parse_comparison (fuel : Nat) (p : Parser) :
    Except ParseError (Expr × Parser) :=
  match fuel with
  | 0 => .error parserOutOfFuel
  | fuel + 1 =>
    match parse_term fuel p with
    | .error e => .error e
    | .ok (expr, p) => parse_comparison_loop fuel expr p

def parse_comparison_loop (fuel : Nat) (expr : Expr) (p : Parser) :
    Except ParseError (Expr × Parser) :=
  match fuel with
  | 0 => .error parserOutOfFuel
  | fuel + 1 =>
    if parser_check p .LT ∨ parser_check p .LTE ∨
       parser_check p .GT ∨ parser_check p .GTE then
      let op_token := p.current
      let p := parser_advance p
      match parse_term fuel p with
      | .error e => .error e
      | .ok (right, p) =>
        parse_comparison_loop fuel (.binary op_token op_token.type expr right) p
    else .ok (expr, p)

def parse_term (fuel : Nat) (p : Parser) :
    Except ParseError (Expr × Parser) :=
  match fuel with
  | 0 => .error parserOutOfFuel
  | fuel + 1 =>
    match parse_factor fuel p with
    | .error e => .error e
    | .ok (expr, p) => parse_term_loop fuel expr p

def parse_term_loop (fuel : Nat) (expr : Expr) (p : Parser) :
    Except ParseError (Expr × Parser) :=
  match fuel with
  | 0 => .error parserOutOfFuel
  | fuel + 1 =>
    if parser_check p .PLUS ∨ parser_check p .MINUS then
      let op_token := p.current
      let p := parser_advance p
      match parse_factor fuel p with
      | .error e => .error e
      | .ok (right, p) =>
        parse_term_loop fuel (.binary op_token op_token.type expr right) p
    else .ok (expr, p)

def parse_factor (fuel : Nat) (p : Parser) :
    Except ParseError (Expr × Parser) :=
  match fuel with
  | 0 => .error parserOutOfFuel
  | fuel + 1 =>
    match parse_call fuel p with
    | .error e => .error e
    | .ok (expr, p) => parse_factor_loop fuel expr p

def parse_factor_loop (fuel : Nat) (expr : Expr) (p : Parser) :
    Except ParseError (Expr × Parser) :=
  match fuel with
  | 0 => .error parserOutOfFuel
  | fuel + 1 =>
    if parser_check p .STAR ∨ parser_check p .SLASH then
      let op_token := p.current
      let p := parser_advance p
      match parse_call fuel p with
      | .error e => .error e
      | .ok (right, p) =>
        parse_factor_loop fuel (.binary op_token op_token.type expr right) p
    else .ok (expr, p)

def parse_call (fuel : Nat) (p : Parser) :
    Except ParseError (Expr × Parser) :=
  match fuel with
  | 0 => .error parserOutOfFuel
  | fuel + 1 =>
    match parse_primary fuel p with
    | .error e => .error e
    | .ok (expr, p) => parse_call_loop fuel expr p

def parse_call_loop (fuel : Nat) (expr : Expr) (p : Parser) :
    Except ParseError (Expr × Parser) :=
  match fuel with
  | 0 => .error parserOutOfFuel
  | fuel + 1 =>
    let (m, p1) := parser_match p .LPAREN
    if m then
      match finish_call fuel expr p1 with
      | .error e => .error e
      | .ok (expr, p2) => parse_call_loop fuel expr p2
    else .ok (expr, p)

def finish_call (fuel : Nat) (callee : Expr) (p : Parser) :
    Except ParseError (Expr × Parser) :=
  match fuel with
  | 0 => .error parserOutOfFuel
  | fuel + 1 =>
    let lparen := p.previous
    match
      (if parser_check p .RPAREN then .ok ([], p)
       else finish_call_args fuel p [] :
         Except ParseError (List Expr × Parser)) with
    | .error e => .error e
    | .ok (args, p) =>
    match parser_consume p .RPAREN "expected ')' after arguments" with
    | .error e => .error e
    | .ok (_, p) => .ok (.call lparen callee args, p)

def finish_call_args (fuel : Nat) (p : Parser) (acc : List Expr) :
    Except ParseError (List Expr × Parser) :=
  match fuel with
  | 0 => .error parserOutOfFuel
  | fuel + 1 =>
    match parse_expression fuel p with
    | .error e => .error e
    | .ok (argument, p) =>
      let acc := acc ++ [argument]
      let (comma, p) := parser_match p .COMMA
      if comma then finish_call_args fuel p acc else .ok (acc, p)

def parse_primary (fuel : Nat) (p : Parser) :
    Except ParseError (Expr × Parser) :=
  match fuel with
  | 0 => .error parserOutOfFuel
  | fuel + 1 =>
    let (m_int, p1) := parser_match p .INT
    if m_int then
      .ok (.literal p1.previous .INT (some p1.previous.lexeme) false, p1)
    else
      let (m_float, p2) := parser_match p .FLOAT
      if m_float then
        .ok (.literal p2.previous .FLOAT (some p2.previous.lexeme) false, p2)
      else
        let (m_string, p3) := parser_match p .STRING
        if m_string then
          .ok (.literal p3.previous .STRING (some p3.previous.lexeme) false, p3)
        else
          let (m_true, p4) := parser_match p .TRUE
          if m_true then
            .ok (.literal p4.previous .BOOL none true, p4)
          else
            let (m_false, p5) := parser_match p .FALSE
            if m_false then
              .ok (.literal p5.previous .BOOL none false, p5)
            else
              let (m_null, p6) := parser_match p .NULL
              if m_null then
                .ok (.literal p6.previous .NULL none false, p6)
              else
                let (m_ident, p7) := parser_match p .IDENT
                if m_ident then
                  .ok (.identifier p7.previous p7.previous.lexeme, p7)
                else
                  let (m_lparen, p8) := parser_match p .LPAREN
                  if m_lparen then
                    match parse_expression fuel p8 with
                    | .error e => .error e
                    | .ok (expr, p9) =>
                      match parser_consume p9 .RPAREN "expected ')' after expression" with
                      | .error e => .error e
                      | .ok (_, p10) => .ok (expr, p10)
                  else
                    .error (parser_error p.current "unexpected token in expression")

end

/-- `parse_program` (parser.c): initialize the two-token buffer and parse
the import list followed by the declarations. -/
def parse_program (fuel : Nat) (tokens : List Token) :
    Except ParseError ASTProgram :=
  parse_program_loop fuel (parser_skip_newlines (parser_init tokens)) true [] []

/-! ## Semantic analyzer (sema.c) -/

inductive FlowMode where
  | NONE | MAYBE | RESULT
deriving DecidableEq

structure VarSymbol where
  name : String
  is_mutable : Bool
  type_name : Option String
  token : Token

structure FunctionSymbol where
  name : String
  return_type : Option String
  token : Token

structure SemaError where
  token : Token
  message : String
deriving DecidableEq

/-- `SemaContext`: scope stack (head = innermost scope), flat function
table in registration order, the current-function marker and the flow mode
of the function being checked. -/
structure SemaContext where
  scopes : List (List VarSymbol)
  functions : List FunctionSymbol
  in_function : Bool
  current_flow_mode : FlowMode

def sema_context_init : SemaContext :=
  { scopes := [], functions := [], in_function := false,
    current_flow_mode := .NONE }

def sema_push_scope (ctx : SemaContext) : SemaContext :=
  { ctx with scopes := [] :: ctx.scopes }

def sema_pop_scope (ctx : SemaContext) : SemaContext :=
  { ctx with scopes := ctx.scopes.tail }

def sema_add_var (ctx : SemaContext) (name : String) (is_mutable : Bool)
    (type_name : Option String) (token : Token) :
    Except SemaError SemaContext :=
  let ctx := if ctx.scopes.isEmpty then sema_push_scope ctx else ctx
  match ctx.scopes with
  | [] => .ok ctx
  | scope :: rest =>
    if scope.any (fun v => v.name = name) then
      .error ⟨token, "symbol already declared in this scope"⟩
    else
      .ok { ctx with scopes :=
              (scope ++ [{ name := name, is_mutable := is_mutable,
                           type_name := type_name, token := token }]) :: rest }

def sema_lookup_var_scopes (name : String) :
    List (List VarSymbol) → Option VarSymbol
  | [] => none
  | scope :: rest =>
    match scope.find? (fun v => v.name = name) with
    | some v => some v
    | none => sema_lookup_var_scopes name rest

def sema_lookup_var (ctx : SemaContext) (name : String) : Option VarSymbol :=
  sema_lookup_var_scopes name ctx.scopes

def sema_add_function_symbol (ctx : SemaContext) (name : String)
    (return_type : Option String) (token : Token) :
    Except SemaError SemaContext :=
  if ctx.functions.any (fun f => f.name = name) then
    .error ⟨token, "function already declared"⟩
  else
    .ok { ctx with functions :=
            ctx.functions ++ [{ name := name, return_type := return_type,
                                token := token }] }

def builtin_token : Token :=
  { type := .IDENT, lexeme := "", line := 0, column := 0 }

/-- `sema_register_builtins`: the single supported builtin `log`, returning
`null`. -/
def sema_register_builtins (ctx : SemaContext) : Except SemaError SemaContext :=
  sema_add_function_symbol ctx "log" (some "null") builtin_token

def sema_lookup_function (ctx : SemaContext) (name : String) :
    Option FunctionSymbol :=
  ctx.functions.find? (fun f => f.name = name)

def sema_note_flow_usage (ctx : SemaContext) (mode : FlowMode)
    (token : Token) : Except SemaError SemaContext :=
  if mode = .NONE then .ok ctx
  else if ctx.current_flow_mode = .NONE then
    .ok { ctx with current_flow_mode := mode }
  else if ctx.current_flow_mode ≠ mode then
    .error ⟨token, "cannot mix maybe and result in the same function"⟩
  else .ok ctx

/-- `type_starts_with`: `strncmp(type_name, pre, strlen(pre)) == 0`
(for a NUL-terminated `type_name` this is exactly prefix containment) and
the character right after the matched span is `'\0'` or `'['`. -/
def type_starts_with (type_name : Option String) (pre : String) : Bool :=
  match type_name with
  | none => false
  | some s =>
    pre.data.isPrefixOf s.data &&
      (match s.data.drop pre.data.length with
       | [] => true
       | c :: _ => c = '[')

def type_is_maybe (type_name : Option String) : Bool :=
  type_starts_with type_name "maybe"

def type_is_result (type_name : Option String) : Bool :=
  type_starts_with type_name "result"

def flow_mode_from_type (type_name : Option String) : FlowMode :=
  if type_is_result type_name then .RESULT
  else if type_is_maybe type_name then .MAYBE
  else .NONE

def type_is_primitive (type_name : Option String) : Bool :=
  match type_name with
  | none => false
  | some s =>
    s = "int" || s = "float" || s = "bool" || s = "string" || s = "null"

def type_is_concurrency (type_name : Option String) : Bool :=
  type_starts_with type_name "future" || type_starts_with type_name "chan"

def sema_require_supported_type (type_name : Option String) (token : Token)
    (allow_complex : Bool) : Except SemaError Unit :=
  match type_name with
  | none => .ok ()
  | some _ =>
    if type_is_concurrency type_name then
      .error ⟨token, "concurrency is not supported by the current backend"⟩
    else if ¬allow_complex then
      if type_is_result type_name ∨ type_is_maybe type_name then
        .error ⟨token, "struct contains unsupported field type for current backend"⟩
      else if ¬type_is_primitive type_name then
        .error ⟨token, "struct contains unsupported field type for current backend"⟩
      else .ok ()
    else .ok ()

def sema_validate_struct_field (decl_name : String) (field : StructField) :
    Except SemaError Unit :=
  match sema_require_supported_type (some field.type_name) field.token false with
  | .error e => .error e
  | .ok () =>
    if field.type_name = decl_name then
      .error ⟨field.token, "struct contains unsupported field type for current backend"⟩
    else .ok ()

def sema_is_concurrency_keyword (name : String) : Bool :=
  name = "task" || name = "future" || name = "chan"

def sema_check_builtin_call (e : Expr) : Except SemaError Unit :=
  match e with
  | .call tok (.identifier _ name) args =>
    if name = "log" ∧ args.length ≠ 1 then
      .error ⟨tok, "log expects exactly one argument"⟩
    else .ok ()
  | _ => .ok ()

mutual

/-- `sema_check_expression` including its `if (!node) return;` guard. -/
def sema_check_expression (ctx : SemaContext) (e : Option Expr) :
    Except SemaError Unit :=
  match e with
  | none => .ok ()
  | some e => sema_check_expression_node ctx e

def sema_check_expression_node (ctx : SemaContext) (e : Expr) :
    Except SemaError Unit :=
  match e with
  | .literal _ _ _ _ => .ok ()
  | .identifier tok name =>
    if sema_is_concurrency_keyword name then
      .error ⟨tok, "concurrency is not supported by the current backend"⟩
    else if (sema_lookup_var ctx name).isSome then .ok ()
    else if (sema_lookup_function ctx name).isSome then .ok ()
    else .error ⟨tok, "undeclared identifier"⟩
  | .call tok callee args =>
    match
      (match callee with
       | .identifier ctok cname =>
         if sema_is_concurrency_keyword cname then
           Except.error (SemaError.mk tok "concurrency is not supported by the current backend")
         else if (sema_lookup_function ctx cname).isNone then
           (if (sema_lookup_var ctx cname).isNone then
             Except.error (SemaError.mk ctok "call to undefined function")
           else Except.ok ())
         else Except.ok ()
       | other => sema_check_expression_node ctx other) with
    | .error e => .error e
    | .ok () =>
      match sema_check_arguments ctx args with
      | .error e => .error e
      | .ok () => sema_check_builtin_call (.call tok callee args)
  | .binary _ _ left right =>
    match sema_check_expression_node ctx left with
    | .error e => .error e
    | .ok () => sema_check_expression_node ctx right
termination_by structural e

def sema_check_arguments (ctx : SemaContext) (args : List Expr) :
    Except SemaError Unit :=
  match args with
  | [] => .ok ()
  | a :: rest =>
    match sema_check_expression_node ctx a with
    | .error e => .error e
    | .ok () => sema_check_arguments ctx rest
termination_by structural args

end

def sema_check_unused_result (ctx : SemaContext) (expr : Option Expr) :
    Except SemaError Unit :=
  match expr with
  | some (.call tok (.identifier _ iname) _) =>
    match sema_lookup_function ctx iname with
    | some fn =>
      if type_is_result fn.return_type then
        .error ⟨tok, "result-returning function must not be ignored"⟩
      else .ok ()
    | none => .ok ()
  | _ => .ok ()

mutual

def sema_check_statement (ctx : SemaContext) (s : Stmt) :
    Except SemaError SemaContext :=
  match s with
  | .varDecl tok is_mutable name type_name init =>
    match sema_require_supported_type (some type_name) tok true with
    | .error e => .error e
    | .ok () =>
      match sema_note_flow_usage ctx (flow_mode_from_type (some type_name)) tok with
      | .error e => .error e
      | .ok ctx =>
        match sema_add_var ctx name is_mutable (some type_name) tok with
        | .error e => .error e
        | .ok ctx =>
          match sema_check_expression ctx init with
          | .error e => .error e
          | .ok () => .ok ctx
  | .assign tok target value =>
    match sema_lookup_var ctx target with
    | none => .error ⟨tok, "assignment to undeclared variable"⟩
    | some symbol =>
      if ¬symbol.is_mutable then
        .error ⟨tok, "cannot assign to immutable variable"⟩
      else
        match sema_check_expression ctx (some value) with
        | .error e => .error e
        | .ok () => .ok ctx
  | .ifStmt _ condition then_block else_block =>
    match sema_check_expression ctx (some condition) with
    | .error e => .error e
    | .ok () =>
      -- sema_check_block(ctx, stmt->then_block, true), scope push/pop inlined
      match sema_check_statements (sema_push_scope ctx) then_block with
      | .error e => .error e
      | .ok ctx2 =>
        let ctx := sema_pop_scope ctx2
        -- sema_check_block(ctx, stmt->else_block, true)
        match else_block with
        | none => .ok ctx
        | some stmts =>
          match sema_check_statements (sema_push_scope ctx) stmts with
          | .error e => .error e
          | .ok ctx3 => .ok (sema_pop_scope ctx3)
  | .forStmt tok _ _ _ =>
    .error ⟨tok, "'for in' is not yet supported for this type"⟩
  | .returnStmt tok value =>
    if ¬ctx.in_function then .error ⟨tok, "return outside of function"⟩
    else
      match sema_check_expression ctx value with
      | .error e => .error e
      | .ok () => .ok ctx
  | .exprStmt _ expr =>
    match sema_check_expression ctx expr with
    | .error e => .error e
    | .ok () =>
      match sema_check_unused_result ctx expr with
      | .error e => .error e
      | .ok () => .ok ctx
termination_by structural s

def sema_check_statements (ctx : SemaContext) (stmts : List Stmt) :
    Except SemaError SemaContext :=
  match stmts with
  | [] => .ok ctx
  | s :: rest =>
    match sema_check_statement ctx s with
    | .error e => .error e
    | .ok ctx => sema_check_statements ctx rest
termination_by structural stmts

end

/-- Body of `sema_check_block` for a non-null block pointer. -/
def sema_check_block_stmts (ctx : SemaContext) (stmts : List Stmt)
    (owns_scope : Bool) : Except SemaError SemaContext :=
  let ctx1 := if owns_scope then sema_push_scope ctx else ctx
  match sema_check_statements ctx1 stmts with
  | .error e => .error e
  | .ok ctx2 => .ok (if owns_scope then sema_pop_scope ctx2 else ctx2)

/-- `sema_check_block` including its `if (!block) return;` guard. -/
def sema_check_block (ctx : SemaContext) (block : Option (List Stmt))
    (owns_scope : Bool) : Except SemaError SemaContext :=
  match block with
  | none => .ok ctx
  | some stmts => sema_check_block_stmts ctx stmts owns_scope

def sema_struct_dup_check (field : StructField) :
    List StructField → Except SemaError Unit
  | [] => .ok ()
  | f :: rest =>
    if f.name = field.name then
      .error ⟨f.token, "duplicate field name in struct"⟩
    else sema_struct_dup_check field rest

def sema_check_struct_fields (decl_name : String) :
    List StructField → Except SemaError Unit
  | [] => .ok ()
  | f :: rest =>
    match sema_struct_dup_check f rest with
    | .error e => .error e
    | .ok () =>
      match sema_validate_struct_field decl_name f with
      | .error e => .error e
      | .ok () => sema_check_struct_fields decl_name rest

def sema_check_struct (decl : StructDecl) : Except SemaError Unit :=
  sema_check_struct_fields decl.name decl.fields

def sema_check_function_params (ctx : SemaContext) :
    List FunctionParam → Except SemaError SemaContext
  | [] => .ok ctx
  | param :: rest =>
    match sema_require_supported_type (some param.type_name) param.token true with
    | .error e => .error e
    | .ok () =>
      match sema_note_flow_usage ctx (flow_mode_from_type (some param.type_name))
          param.token with
      | .error e => .error e
      | .ok ctx =>
        match sema_add_var ctx param.name false (some param.type_name)
            param.token with
        | .error e => .error e
        | .ok ctx => sema_check_function_params ctx rest

/-- `sema_check_function`.  Besides the restored context this embedding also
returns the flow mode the analyzer computed for the function (the value of
`ctx->current_flow_mode` just before it is restored to the saved one). -/
def sema_check_function (ctx : SemaContext) (fn : FunctionDecl) :
    Except SemaError (SemaContext × FlowMode) :=
  let prev_in := ctx.in_function
  let prev_flow := ctx.current_flow_mode
  let ctx := { ctx with
               in_function := true
               current_flow_mode := flow_mode_from_type fn.return_type }
  match sema_require_supported_type fn.return_type fn.token true with
  | .error e => .error e
  | .ok () =>
    if fn.name = "main" ∧ type_is_result fn.return_type then
      .error ⟨fn.token, "main cannot return result type"⟩
    else
      match sema_check_function_params (sema_push_scope ctx) fn.params with
      | .error e => .error e
      | .ok ctx =>
        match sema_check_block ctx fn.body false with
        | .error e => .error e
        | .ok ctx =>
          let ctx := sema_pop_scope ctx
          .ok ({ ctx with
                 in_function := prev_in
                 current_flow_mode := prev_flow }, ctx.current_flow_mode)

def sema_check_declaration (ctx : SemaContext) (decl : Decl) :
    Except SemaError SemaContext :=
  match decl with
  | .function fn =>
    match sema_check_function ctx fn with
    | .error e => .error e
    | .ok (ctx, _) => .ok ctx
  | .structure' s =>
    match sema_check_struct s with
    | .error e => .error e
    | .ok () => .ok ctx

def sema_register_function (ctx : SemaContext) (fn : FunctionDecl) :
    Except SemaError SemaContext :=
  sema_add_function_symbol ctx fn.name fn.return_type fn.token

def sema_register_functions (ctx : SemaContext) :
    List Decl → Except SemaError SemaContext
  | [] => .ok ctx
  | .function fn :: rest =>
    match sema_register_function ctx fn with
    | .error e => .error e
    | .ok ctx => sema_register_functions ctx rest
  | .structure' _ :: rest => sema_register_functions ctx rest

def sema_check_declarations (ctx : SemaContext) :
    List Decl → Except SemaError SemaContext
  | [] => .ok ctx
  | d :: rest =>
    match sema_check_declaration ctx d with
    | .error e => .error e
    | .ok ctx => sema_check_declarations ctx rest

def sema_check_program (program : ASTProgram) : Except SemaError Unit :=
  match sema_register_builtins sema_context_init with
  | .error e => .error e
  | .ok ctx =>
    match sema_register_functions ctx program.declarations with
    | .error e => .error e
    | .ok ctx =>
      match sema_check_declarations ctx program.declarations with
      | .error e => .error e
      | .ok _ => .ok ()

/-- Rendering of `sema_error`'s stderr line. -/
def sema_error_render (e : SemaError) : String :=
  "[line " ++ toString e.token.line ++ ":" ++ toString e.token.column ++
    "] Semantic error: " ++ e.message

/-- Rendering of `parser_error`'s stderr line. -/
def parser_error_render (e : ParseError) : String :=
  "[line " ++ toString e.token.line ++ ":" ++ toString e.token.column ++
    "] Parse error: " ++ e.message

/-- The front half of `main` (main.c): lex, parse, then run sema; the first
failing stage aborts the compilation with its diagnostic (exit status 1). -/
def compiler_front (lex_fuel parse_fuel : Nat) (source : String) :
    Except String Unit :=
  match lexer_run_eof lex_fuel (lexer_create source) with
  | .error e => .error e
  | .ok toks =>
    match parse_program parse_fuel toks with
    | .error e => .error (parser_error_render e)
    | .ok program =>
      match sema_check_program program with
      | .error e => .error (sema_error_render e)
      | .ok () => .ok ()

/-! ## Code generator (codegen.c)

Only the emission machinery reachable from function bodies is embedded
(types, helper selection, statement/expression emission); emitted text is
modelled as the list of output lines, each line prefixed by the writer's
four-space indentation. -/

structure CGVarBinding where
  name : String
  type_name : String
  is_mutable : Bool

structure CodegenContext where
  structs : List String
  functions : List String
  scopes : List (List CGVarBinding)
  had_error : Bool

def cg_context_init : CodegenContext :=
  { structs := [], functions := [], scopes := [], had_error := false }

def cg_register_struct (ctx : CodegenContext) (name : String) : CodegenContext :=
  { ctx with structs := ctx.structs ++ [name] }

def cg_register_function (ctx : CodegenContext) (name : String) : CodegenContext :=
  { ctx with functions := ctx.functions ++ [name] }

def cg_collect_metadata_decls (ctx : CodegenContext) : List Decl → CodegenContext
  | [] => ctx
  | .structure' s :: rest => cg_collect_metadata_decls (cg_register_struct ctx s.name) rest
  | .function f :: rest => cg_collect_metadata_decls (cg_register_function ctx f.name) rest

def cg_collect_metadata (ctx : CodegenContext) (program : ASTProgram) : CodegenContext :=
  cg_collect_metadata_decls ctx program.declarations

def cg_find_struct (ctx : CodegenContext) (name : Option String) : Option String :=
  match name with
  | none => none
  | some n => ctx.structs.find? (fun s => s = n)

def cg_find_function (ctx : CodegenContext) (name : Option String) : Option String :=
  match name with
  | none => none
  | some n => ctx.functions.find? (fun s => s = n)

def cg_scope_push (ctx : CodegenContext) : CodegenContext :=
  { ctx with scopes := [] :: ctx.scopes }

def cg_scope_pop (ctx : CodegenContext) : CodegenContext :=
  { ctx with scopes := ctx.scopes.tail }

def cg_scope_add (ctx : CodegenContext) (name type_name : String)
    (is_mutable : Bool) : CodegenContext :=
  let ctx := if ctx.scopes.isEmpty then cg_scope_push ctx else ctx
  match ctx.scopes with
  | [] => ctx
  | scope :: rest =>
    { ctx with scopes :=
        (scope ++ [{ name := name, type_name := type_name,
                     is_mutable := is_mutable }]) :: rest }

def cg_scope_lookup_scopes (name : String) :
    List (List CGVarBinding) → Option CGVarBinding
  | [] => none
  | scope :: rest =>
    match scope.find? (fun v => v.name = name) with
    | some v => some v
    | none => cg_scope_lookup_scopes name rest

def cg_scope_lookup (ctx : CodegenContext) (name : String) : Option CGVarBinding :=
  cg_scope_lookup_scopes name ctx.scopes

/-- `cg_type_is_result`: a bare `strncmp(type_name, "result", 6) == 0`. -/
def cg_type_is_result (type_name : Option String) : Bool :=
  match type_name with
  | none => false
  | some s => "result".data.isPrefixOf s.data

/-- `cg_type_is_maybe`: a bare `strncmp(type_name, "maybe", 5) == 0`. -/
def cg_type_is_maybe (type_name : Option String) : Bool :=
  match type_name with
  | none => false
  | some s => "maybe".data.isPrefixOf s.data

/-- `cg_c_type_for`.  The struct branch and the final fallback both return
the language-level name verbatim. -/
def cg_c_type_for (type_name : Option String) : String :=
  match type_name with
  | none => "void *"
  | some s =>
    if s = "int" then "int64_t"
    else if s = "float" then "double"
    else if s = "bool" then "bool"
    else if s = "string" then "struct lz_string *"
    else if s = "null" then "void *"
    else if cg_type_is_result (some s) then "lz_result"
    else if cg_type_is_maybe (some s) then "lz_maybe"
    else s

def cg_c_return_type_for (type_name : Option String) : String :=
  match type_name with
  | none => "void"
  | some s => if s = "null" then "void" else cg_c_type_for (some s)

def cg_assign_helper_for (ctx : CodegenContext) (type_name : Option String) :
    String :=
  match type_name with
  | none => "lz_assign_ptr"
  | some s =>
    if s = "int" then "lz_assign_int64"
    else if s = "float" then "lz_assign_double"
    else if s = "bool" then "lz_assign_bool"
    else if s = "string" then "lz_assign_string"
    else if cg_type_is_result (some s) then "lz_assign_result"
    else if cg_type_is_maybe (some s) then "lz_assign_maybe"
    else
      match cg_find_struct ctx (some s) with
      | some n => "lz_assign_struct_" ++ n
      | none => "lz_assign_ptr"

/-- `cg_fail` records the first error; the diagnostic text itself is not
needed by the theorems below. -/
def cg_fail (ctx : CodegenContext) : CodegenContext :=
  { ctx with had_error := true }

def cg_binary_op (type : TokenType) : String :=
  match type with
  | .PLUS => "+"
  | .MINUS => "-"
  | .STAR => "*"
  | .SLASH => "/"
  | .EQEQ => "=="
  | .BANGEQ => "!="
  | .LT => "<"
  | .LTE => "<="
  | .GT => ">"
  | .GTE => ">="
  | _ => "/*?*/"

def cg_hex_digit (n : Nat) : Char :=
  if n < 10 then Char.ofNat ('0'.toNat + n)
  else Char.ofNat ('A'.toNat + (n - 10))

/-- Escaping performed by `cg_emit_string_literal` per source byte. -/
def cg_escape_char (c : Char) : String :=
  if c = '\\' then "\\\\"
  else if c = '"' then "\\\""
  else if c = '\n' then "\\n"
  else if c = '\r' then "\\r"
  else if c = '\t' then "\\t"
  else if cIsPrint c then String.singleton c
  else
    "\\x" ++ String.singleton (cg_hex_digit (c.toNat % 256 / 16)) ++
      String.singleton (cg_hex_digit (c.toNat % 16))

def cg_emit_string_literal (text : String) : String :=
  "lz_string_from_literal(\"" ++ String.join (text.data.map cg_escape_char) ++ "\")"

def cg_emit_literal (kind : LiteralKind) (text : Option String)
    (bool_value : Bool) : String :=
  match kind with
  | .INT => text.getD "0"
  | .FLOAT => text.getD "0"
  | .BOOL => if bool_value then "true" else "false"
  | .STRING => cg_emit_string_literal (text.getD "")
  | .NULL => "NULL"

def cg_emit_identifier (ctx : CodegenContext) (name : String) : String :=
  if name = "log" then "lz_runtime_log"
  else if (cg_scope_lookup ctx name).isSome then name
  else if (cg_find_function ctx (some name)).isSome then "lz_fn_" ++ name
  else name

mutual

def cg_emit_expression_node (ctx : CodegenContext) (e : Expr) : String :=
  match e with
  | .literal _ kind text bool_value => cg_emit_literal kind text bool_value
  | .identifier _ name => cg_emit_identifier ctx name
  | .call _ callee args =>
    cg_emit_expression_node ctx callee ++ "(" ++ cg_emit_call_args ctx args ++ ")"
  | .binary _ op left right =>
    "(" ++ cg_emit_expression_node ctx left ++ " " ++ cg_binary_op op ++ " " ++
      cg_emit_expression_node ctx right ++ ")"
termination_by structural e

def cg_emit_call_args (ctx : CodegenContext) (args : List Expr) : String :=
  match args with
  | [] => ""
  | [e] => cg_emit_expression_node ctx e
  | e :: rest =>
    cg_emit_expression_node ctx e ++ ", " ++ cg_emit_call_args ctx rest
termination_by structural args

end

/-- `cg_emit_expression` including its `if (!node)` guard. -/
def cg_emit_expression (ctx : CodegenContext) : Option Expr → String
  | none => "NULL"
  | some e => cg_emit_expression_node ctx e

/-- Four spaces per writer indentation level. -/
def cg_indent : Nat → String
  | 0 => ""
  | n + 1 => "    " ++ cg_indent n

def cg_emit_assignment_call (ctx : CodegenContext) (ind : Nat)
    (target_name : String) (type_name : Option String) (value : Option Expr) :
    String :=
  cg_indent ind ++ cg_assign_helper_for ctx type_name ++ "(&" ++ target_name ++
    ", " ++ cg_emit_expression ctx value ++ ");"

def cg_emit_var_decl (ctx : CodegenContext) (ind : Nat) (is_mutable : Bool)
    (name type_name : String) (init : Option Expr) :
    List String × CodegenContext :=
  let decl_line := cg_indent ind ++ cg_c_type_for (some type_name) ++ " " ++
    name ++ " = \x7b0\x7d;"
  let ctx := cg_scope_add ctx name type_name is_mutable
  ([decl_line, cg_emit_assignment_call ctx ind name (some type_name) init], ctx)

def cg_emit_assignment (ctx : CodegenContext) (ind : Nat)
    (target : String) (value : Expr) : List String × CodegenContext :=
  match cg_scope_lookup ctx target with
  | none => ([], cg_fail ctx)
  | some binding =>
    ([cg_emit_assignment_call ctx ind target (some binding.type_name)
        (some value)], ctx)

def cg_emit_return_line (ctx : CodegenContext) (ind : Nat)
    (value : Option Expr) : String :=
  match value with
  | some e => cg_indent ind ++ "return " ++ cg_emit_expression_node ctx e ++ ";"
  | none => cg_indent ind ++ "return;"

def cg_emit_expr_stmt (ctx : CodegenContext) (ind : Nat)
    (tail_var tail_helper : Option String) (expr : Option Expr) : String :=
  match tail_var, tail_helper, expr with
  | some tv, some th, some e =>
    cg_indent ind ++ th ++ "(&" ++ tv ++ ", " ++ cg_emit_expression_node ctx e
      ++ ");"
  | _, _, expr =>
    cg_indent ind ++
      (match expr with
       | some e => cg_emit_expression_node ctx e
       | none => "") ++ ";"

mutual

def cg_emit_statement (ctx : CodegenContext) (ind : Nat)
    (tail_var tail_helper : Option String) (s : Stmt) :
    List String × CodegenContext :=
  match s with
  | .varDecl _ is_mutable name type_name init =>
    if ctx.had_error then ([], ctx)
    else cg_emit_var_decl ctx ind is_mutable name type_name init
  | .assign _ target value =>
    if ctx.had_error then ([], ctx)
    else cg_emit_assignment ctx ind target value
  | .ifStmt _ condition then_block else_block =>
    if ctx.had_error then ([], ctx)
    else
      let if_line := cg_indent ind ++ "if (" ++
        cg_emit_expression_node ctx condition ++ ") "
      -- cg_emit_block(ctx, stmt->then_block, tail), brace/scope wrap inlined
      let (tl, ctxa) :=
        cg_emit_block_stmts (cg_scope_push ctx) (ind + 1) tail_var tail_helper
          then_block
      let then_lines := (cg_indent ind ++ "\x7b") :: tl ++ [cg_indent ind ++ "\x7d"]
      let ctx1 := cg_scope_pop ctxa
      match else_block with
      | some eb =>
        let (el, ctxb) :=
          cg_emit_block_stmts (cg_scope_push ctx1) (ind + 1) tail_var tail_helper
            eb
        let else_lines := (cg_indent ind ++ "\x7b") :: el ++ [cg_indent ind ++ "\x7d"]
        let ctx2 := cg_scope_pop ctxb
        (if_line :: then_lines ++ [cg_indent ind ++ "else"] ++ else_lines, ctx2)
      | none => (if_line :: then_lines, ctx1)
  | .forStmt _ _ _ _ =>
    if ctx.had_error then ([], ctx) else ([], cg_fail ctx)
  | .returnStmt _ value =>
    if ctx.had_error then ([], ctx)
    else ([cg_emit_return_line ctx ind value], ctx)
  | .exprStmt _ expr =>
    if ctx.had_error then ([], ctx)
    else ([cg_emit_expr_stmt ctx ind tail_var tail_helper expr], ctx)
termination_by structural s

/-- The statement loop shared by `cg_emit_block` and
`cg_emit_function_body`: the tail slot is forwarded only to the final
statement (`(tail_var && is_last) ? tail_var : NULL`). -/
def cg_emit_block_stmts (ctx : CodegenContext) (ind : Nat)
    (tail_var tail_helper : Option String) (stmts : List Stmt) :
    List String × CodegenContext :=
  match stmts with
  | [] => ([], ctx)
  | [s] => cg_emit_statement ctx ind tail_var tail_helper s
  | s :: rest =>
    let (lines1, ctx1) := cg_emit_statement ctx ind none none s
    let (lines2, ctx2) := cg_emit_block_stmts ctx1 ind tail_var tail_helper rest
    (lines1 ++ lines2, ctx2)
termination_by structural stmts

end

/-- `cg_emit_block`: braces, a fresh scope, and the statement loop. -/
def cg_emit_block (ctx : CodegenContext) (ind : Nat)
    (tail_var tail_helper : Option String) (stmts : List Stmt) :
    List String × CodegenContext :=
  let ctx1 := cg_scope_push ctx
  let (lines, ctx2) := cg_emit_block_stmts ctx1 (ind + 1) tail_var tail_helper stmts
  ((cg_indent ind ++ "\x7b") :: lines ++ [cg_indent ind ++ "\x7d"],
   cg_scope_pop ctx2)

def cg_scope_add_params (ctx : CodegenContext) :
    List FunctionParam → CodegenContext
  | [] => ctx
  | p :: rest => cg_scope_add_params (cg_scope_add ctx p.name p.type_name false) rest

/-- Does the body end in an explicit return statement?
(`last_stmt->kind == AST_NODE_RETURN` on the final statement). -/
def cg_last_is_return (stmts : List Stmt) : Bool :=
  match stmts.getLast? with
  | some (.returnStmt _ _) => true
  | _ => false

/-- `cg_emit_function_body`: emit braces, synthesize the `__lz_ret` slot
when the function returns a value and its last statement is not a
`return`, thread the tail slot into the final statement, and emit
`return __lz_ret;` before the closing brace. -/
def cg_emit_function_body (ctx : CodegenContext) (fn : FunctionDecl) :
    List String × CodegenContext :=
  match fn.body with
  | none => (["\x7b", "\x7d"], ctx)
  | some stmts =>
    let ctx := cg_scope_push ctx
    let ctx := cg_scope_add_params ctx fn.params
    let ret_type := cg_c_return_type_for fn.return_type
    let returns_value := ret_type ≠ "void"
    let needs_tail_return := returns_value ∧ ¬cg_last_is_return stmts
    let tail_var : Option String :=
      if needs_tail_return then some "__lz_ret" else none
    let tail_helper : Option String :=
      if needs_tail_return then some (cg_assign_helper_for ctx fn.return_type)
      else none
    let decl_lines : List String :=
      if needs_tail_return then
        [cg_indent 1 ++ cg_c_type_for fn.return_type ++ " __lz_ret = \x7b0\x7d;"]
      else []
    let (stmt_lines, ctx) := cg_emit_block_stmts ctx 1 tail_var tail_helper stmts
    let ret_lines : List String :=
      if needs_tail_return then [cg_indent 1 ++ "return __lz_ret;"] else []
    ("\x7b" :: (decl_lines ++ stmt_lines ++ ret_lines) ++ ["\x7d"],
     cg_scope_pop ctx)

/-! ## Derived definitions used by the theorem statements -/

/-- Indentation bookkeeping measure of a lexer state: levels pushed above
the bottom sentinel plus queued DEDENTs. -/
def lexer_inv (l : Lexer) : Nat :=
  (l.indentStack.length - 1) + l.pendingDedents

def count_tokens (type : TokenType) (toks : List Token) : Nat :=
  toks.countP (fun t => decide (t.type = type))

/-- The flow-combination table stated by the spec: NONE is absorbed,
equal modes agree, distinct non-NONE modes clash. -/
def flow_join (m c : FlowMode) : Option FlowMode :=
  if c = .NONE then some m
  else if m = .NONE then some c
  else if m ≠ c then none
  else some m

mutual

/-- Flow modes contributed by a statement: local variable declarations,
recursively through `if`/`else` blocks. -/
def stmt_flow_modes (s : Stmt) : List FlowMode :=
  match s with
  | .varDecl _ _ _ type_name _ => [flow_mode_from_type (some type_name)]
  | .ifStmt _ _ then_block else_block =>
    stmts_flow_modes then_block ++
      (match else_block with
       | some b => stmts_flow_modes b
       | none => [])
  | _ => []
termination_by structural s

def stmts_flow_modes (stmts : List Stmt) : List FlowMode :=
  match stmts with
  | [] => []
  | s :: rest => stmt_flow_modes s ++ stmts_flow_modes rest
termination_by structural stmts

end

/-- Flow modes contributed by a function: parameters in order, then the
body's local declarations in traversal order. -/
def fn_flow_modes (fn : FunctionDecl) : List FlowMode :=
  fn.params.map (fun p => flow_mode_from_type (some p.type_name)) ++
    (match fn.body with
     | some b => stmts_flow_modes b
     | none => [])

/-- Flow modes contributed by an optional function body. -/
def body_flow_modes (body : Option (List Stmt)) : List FlowMode :=
  match body with
  | some b => stmts_flow_modes b
  | none => []

/-- Folding `flow_join` over a list of contributed flow modes, failing as
soon as one contribution conflicts with the accumulated mode. -/
def flow_fold (m : FlowMode) : List FlowMode → Option FlowMode
  | [] => some m
  | c :: rest =>
    match flow_join m c with
    | none => none
    | some m' => flow_fold m' rest

/-- The token kinds `parser_collect_type` admits inside a fragment. -/
def type_token_allowed (t : TokenType) : Bool :=
  t = .IDENT || t = .NULL || t = .COMMA || t = .LBRACKET || t = .RBRACKET ||
    t = .DOT

/-- Is the character just after the first `n` characters (if any) an
opening bracket?  This is the extra condition sema's `type_starts_with`
imposes beyond codegen's bare `strncmp`. -/
def type_char_after_ok (s : String) (n : Nat) : Bool :=
  match s.data.drop n with
  | [] => true
  | c :: _ => c = '['

/-- The exact scenario-3 program of the specification. -/
def scenario3_source : String :=
  "main: () -> null = ()\n    x: int = 1\n    x = 2"

/-- Dummy token for witness fixtures. -/
def wit_token : Token := { type := .IDENT, lexeme := "", line := 0, column := 0 }

/-- The scenario-2 function `is_positive: (int) -> bool = (x)` with the
`if x > 0` / `true` / `false` body, used as a concrete witness input. -/
def wit_is_positive : FunctionDecl :=
  { token := wit_token, is_public := false, name := "is_positive",
    params := [{ name := "x", type_name := "int", token := wit_token }],
    return_type := some "bool",
    body := some [
      .ifStmt wit_token
        (.binary wit_token .GT (.identifier wit_token "x")
          (.literal wit_token .INT (some "0") false))
        [.exprStmt wit_token (some (.literal wit_token .BOOL none true))]
        (some [.exprStmt wit_token (some (.literal wit_token .BOOL none false))])] }

/-- A function `g: (maybe[int]) -> maybe[int] = (y)` with one local
declaration, used as a concrete witness input for the flow-mode fold. -/
def wit_flow_fn : FunctionDecl :=
  { token := wit_token, is_public := false, name := "g",
    params := [{ name := "y", type_name := "maybe[int]", token := wit_token }],
    return_type := some "maybe[int]",
    body := some [.varDecl wit_token false "z" "int"
      (some (.literal wit_token .INT (some "1") false))] }

/-- A semantic context with a registered `result`-returning function `f`
and a `null`-returning function `h0`, a concrete fixture for the
unused-result rule. -/
def wit_result_ctx : SemaContext :=
  { scopes := [],
    functions :=
      [{ name := "f", return_type := some "result[int]", token := wit_token },
       { name := "h0", return_type := some "null", token := wit_token }],
    in_function := true, current_flow_mode := .NONE }

/-- A codegen context with one struct and one mutable `int` binding in
scope, a concrete fixture for the assignment-helper rules. -/
def wit_cg_ctx : CodegenContext :=
  { structs := ["Point"], functions := [],
    scopes := [[{ name := "x", type_name := "int", is_mutable := true }]],
    had_error := false }

/-- The token stream the lexer produces for the scenario-3 program
(token columns record the current column after the lexeme was consumed,
as `make_token` stores `l->col`). -/
def scenario3_tokens : List Token :=
  [⟨.IDENT, "main", 1, 5⟩, ⟨.COLON, ":", 1, 6⟩, ⟨.LPAREN, "(", 1, 8⟩,
   ⟨.RPAREN, ")", 1, 9⟩, ⟨.ARROW, "->", 1, 12⟩, ⟨.NULL, "null", 1, 17⟩,
   ⟨.EQUAL, "=", 1, 19⟩, ⟨.LPAREN, "(", 1, 21⟩, ⟨.RPAREN, ")", 1, 22⟩,
   ⟨.NEWLINE, "\n", 2, 1⟩, ⟨.INDENT, "", 2, 5⟩, ⟨.IDENT, "x", 2, 6⟩,
   ⟨.COLON, ":", 2, 7⟩, ⟨.IDENT, "int", 2, 11⟩, ⟨.EQUAL, "=", 2, 13⟩,
   ⟨.INT, "1", 2, 15⟩, ⟨.NEWLINE, "\n", 3, 1⟩, ⟨.IDENT, "x", 3, 6⟩,
   ⟨.EQUAL, "=", 3, 8⟩, ⟨.INT, "2", 3, 10⟩, ⟨.DEDENT, "", 3, 11⟩,
   ⟨.EOF, "", 3, 12⟩]

/-- The AST the parser builds for the scenario-3 program. -/
def scenario3_program : ASTProgram :=
  { imports := [],
    declarations := [Decl.function
      { token := ⟨.IDENT, "main", 1, 5⟩, is_public := false, name := "main",
        params := [], return_type := some "null",
        body := some [
          .varDecl ⟨.IDENT, "x", 2, 6⟩ false "x" "int"
            (some (.literal ⟨.INT, "1", 2, 15⟩ .INT (some "1") false)),
          .assign ⟨.IDENT, "x", 3, 6⟩ "x"
            (.literal ⟨.INT, "2", 3, 10⟩ .INT (some "2") false)] }] }

/-! # Theorems -/

/-! ## Lexer lemmas -/

theorem pop_indents_snd (n : Nat) :
    ∀ (s : List Nat), (pop_indents n s).2 = s.drop (pop_indents n s).1 := by
  intro s
  induction s with
  | nil => simp [pop_indents]
  | cons c rest ih =>
    by_cases hc : rest ≠ [] ∧ n < c
    · simp only [pop_indents, if_pos hc]
      simpa using ih
    · simp [pop_indents, if_neg hc]

theorem pop_indents_lt (n : Nat) :
    ∀ (s : List Nat), s ≠ [] → (pop_indents n s).1 < s.length := by
  intro s
  induction s with
  | nil => intro h; exact absurd rfl h
  | cons c rest ih =>
    intro _
    by_cases hc : rest ≠ [] ∧ n < c
    · simp only [pop_indents, if_pos hc]
      have := ih hc.1
      simp only [List.length_cons]
      omega
    · simp [pop_indents, if_neg hc]

theorem pop_indents_pos (n : Nat) (s : List Nat)
    (hne : s ≠ []) (hlt : n < s.headD 0)
    (heq : n = (pop_indents n s).2.headD 0) :
    1 ≤ (pop_indents n s).1 := by
  rcases s with _ | ⟨c, rest⟩
  · exact absurd rfl hne
  by_cases hc : rest ≠ [] ∧ n < c
  · simp only [pop_indents, if_pos hc]
    omega
  · simp only [pop_indents, if_neg hc] at heq
    simp only [List.headD_cons] at hlt heq
    omega

theorem keyword_type_block_free (s : String) :
    keyword_type s ≠ .INDENT ∧ keyword_type s ≠ .DEDENT ∧
      keyword_type s ≠ .EOF := by
  unfold keyword_type
  rcases hf : keyword_table.find? (fun kv => kv.1 = s) with _ | kv <;>
    simp only [hf]
  · exact ⟨by simp, by simp, by simp⟩
  · have hmem := List.mem_of_find?_eq_some hf
    have hall : ∀ kv ∈ keyword_table,
        kv.2 ≠ TokenType.INDENT ∧ kv.2 ≠ TokenType.DEDENT ∧
          kv.2 ≠ TokenType.EOF := by decide
    exact hall kv hmem

theorem lexer_ident_step_state (stack : List Nat) (pending : Nat)
    (line col : Nat) (c : Char) (r : List Char) (t : Token) (l' : Lexer)
    (h : lexer_ident_step stack pending line col c r = .tok t l') :
    l'.pendingDedents = pending ∧ l'.indentStack = stack ∧
      t.type ≠ .INDENT ∧ t.type ≠ .DEDENT ∧ t.type ≠ .EOF := by
  simp only [lexer_ident_step, ScanStep.tok.injEq] at h
  obtain ⟨ht, hl⟩ := h
  subst ht; subst hl
  exact ⟨rfl, rfl, (keyword_type_block_free _).1,
    (keyword_type_block_free _).2.1, (keyword_type_block_free _).2.2⟩

theorem lexer_number_step_state (stack : List Nat) (pending : Nat)
    (line col : Nat) (c : Char) (r : List Char) (t : Token) (l' : Lexer)
    (h : lexer_number_step stack pending line col c r = .tok t l') :
    l'.pendingDedents = pending ∧ l'.indentStack = stack ∧
      t.type ≠ .INDENT ∧ t.type ≠ .DEDENT ∧ t.type ≠ .EOF := by
  simp only [lexer_number_step] at h
  split at h <;>
    (simp only [ScanStep.tok.injEq] at h
     obtain ⟨ht, hl⟩ := h
     subst ht; subst hl
     exact ⟨rfl, rfl, by simp [make_token], by simp [make_token], by simp [make_token]⟩)

theorem lexer_string_step_state (stack : List Nat) (pending : Nat)
    (line col : Nat) (r : List Char) (t : Token) (l' : Lexer)
    (h : lexer_string_step stack pending line col r = .tok t l') :
    l'.pendingDedents = pending ∧ l'.indentStack = stack ∧
      t.type ≠ .INDENT ∧ t.type ≠ .DEDENT ∧ t.type ≠ .EOF := by
  simp only [lexer_string_step] at h
  split at h <;>
    (simp only [ScanStep.tok.injEq] at h
     obtain ⟨ht, hl⟩ := h
     subst ht; subst hl
     exact ⟨rfl, rfl, by simp [make_token], by simp [make_token], by simp [make_token]⟩)

theorem lexer_symbol_step1_state (stack : List Nat) (pending : Nat)
    (line col : Nat) (c : Char) (r : List Char) (t : Token) (l' : Lexer)
    (h : lexer_symbol_step1 stack pending line col c r = .tok t l') :
    l'.pendingDedents = pending ∧ l'.indentStack = stack ∧
      t.type ≠ .INDENT ∧ t.type ≠ .DEDENT ∧ t.type ≠ .EOF := by
  simp only [lexer_symbol_step1] at h
  repeat' split at h
  all_goals
    (simp only [ScanStep.tok.injEq] at h
     obtain ⟨ht, hl⟩ := h
     subst ht; subst hl
     exact ⟨rfl, rfl, by simp [make_token], by simp [make_token], by simp [make_token]⟩)

theorem lexer_symbol_step2_state (stack : List Nat) (pending : Nat)
    (line col : Nat) (c : Char) (r : List Char) (t : Token) (l' : Lexer)
    (h : lexer_symbol_step2 stack pending line col c r = .tok t l') :
    l'.pendingDedents = pending ∧ l'.indentStack = stack ∧
      t.type ≠ .INDENT ∧ t.type ≠ .DEDENT ∧ t.type ≠ .EOF := by
  simp only [lexer_symbol_step2] at h
  repeat' split at h
  all_goals
    first
    | exact ScanStep.noConfusion h
    | (simp only [ScanStep.tok.injEq] at h
       obtain ⟨ht, hl⟩ := h
       subst ht; subst hl
       exact ⟨rfl, rfl, by simp [make_token], by simp [make_token], by simp [make_token]⟩)

theorem lexer_scan_char_state (stack : List Nat) (pending : Nat)
    (line col : Nat) (c : Char) (r : List Char) (t : Token) (l' : Lexer)
    (h : lexer_scan_char stack pending line col c r = .tok t l') :
    l'.pendingDedents = pending ∧ l'.indentStack = stack ∧
      t.type ≠ .INDENT ∧ t.type ≠ .DEDENT ∧ t.type ≠ .EOF := by
  simp only [lexer_scan_char] at h
  repeat' split at h
  all_goals
    first
    | exact ScanStep.noConfusion h
    | exact lexer_ident_step_state _ _ _ _ _ _ _ _ h
    | exact lexer_number_step_state _ _ _ _ _ _ _ _ h
    | exact lexer_string_step_state _ _ _ _ _ _ _ h
    | exact lexer_symbol_step1_state _ _ _ _ _ _ _ _ h
    | exact lexer_symbol_step2_state _ _ _ _ _ _ _ _ h
    | (simp only [ScanStep.tok.injEq] at h
       obtain ⟨ht, hl⟩ := h
       subst ht; subst hl
       exact ⟨rfl, rfl, by simp [make_token], by simp [make_token], by simp [make_token]⟩)

theorem lexer_scan_chars_state : ∀ (cs : List Char) (stack : List Nat)
    (pending : Nat) (line col : Nat) (t : Token) (l' : Lexer),
    lexer_scan_chars stack pending line col cs = .ok (t, l') →
    l'.pendingDedents = pending ∧
    ((t.type = .DEDENT ∧ l'.indentStack = stack.tail ∧ 1 < stack.length) ∨
     (t.type = .EOF ∧ l'.indentStack = stack ∧ stack.length ≤ 1) ∨
     (t.type ≠ .INDENT ∧ t.type ≠ .DEDENT ∧ t.type ≠ .EOF ∧
       l'.indentStack = stack)) := by
  intro cs
  induction cs with
  | nil =>
    intro stack pending line col t l' h
    simp only [lexer_scan_chars] at h
    split at h <;>
      (simp only [Except.ok.injEq, Prod.mk.injEq] at h
       obtain ⟨ht, hl⟩ := h
       subst ht; subst hl
       refine ⟨rfl, ?_⟩)
    · exact Or.inl ⟨rfl, rfl, by omega⟩
    · exact Or.inr (Or.inl ⟨rfl, rfl, by omega⟩)
  | cons c r ih =>
    intro stack pending line col t l' h
    simp only [lexer_scan_chars] at h
    split at h
    · -- embedded NUL: terminator behaviour
      split at h <;>
        (simp only [Except.ok.injEq, Prod.mk.injEq] at h
         obtain ⟨ht, hl⟩ := h
         subst ht; subst hl
         refine ⟨rfl, ?_⟩)
      · exact Or.inl ⟨rfl, rfl, by omega⟩
      · exact Or.inr (Or.inl ⟨rfl, rfl, by omega⟩)
    · -- ordinary character: one step of the switch
      cases hstep : lexer_scan_char stack pending line col c r with
      | tok t0 l0 =>
        rw [hstep] at h
        replace h : Except.ok (t0, l0) = Except.ok (t, l') := h
        simp only [Except.ok.injEq, Prod.mk.injEq] at h
        obtain ⟨ht, hl⟩ := h
        subst ht; subst hl
        have hs := lexer_scan_char_state _ _ _ _ _ _ _ _ hstep
        exact ⟨hs.1, Or.inr (Or.inr ⟨hs.2.2.1, hs.2.2.2.1, hs.2.2.2.2, hs.2.1⟩)⟩
      | err e0 =>
        rw [hstep] at h
        replace h : Except.error e0 = Except.ok (t, l') := h
        exact Except.noConfusion h
      | skip =>
        rw [hstep] at h
        exact ih _ _ _ _ _ _ h

theorem lexer_scan_chars_inv (stack : List Nat) (line col : Nat)
    (cs : List Char) (t : Token) (l' : Lexer)
    (hne : stack ≠ [])
    (h : lexer_scan_chars stack 0 line col cs = .ok (t, l')) :
    l'.indentStack ≠ [] ∧
    (t.type = .INDENT → False) ∧
    (t.type = .DEDENT → stack.length - 1 = lexer_inv l' + 1) ∧
    (t.type = .EOF → stack.length - 1 = 0 ∧ lexer_inv l' = 0) ∧
    ((t.type ≠ .INDENT ∧ t.type ≠ .DEDENT ∧ t.type ≠ .EOF) →
      lexer_inv l' = stack.length - 1) := by
  have hlenpos : 0 < stack.length := List.length_pos.mpr hne
  obtain ⟨hpend, hcases⟩ := lexer_scan_chars_state cs stack 0 line col t l' h
  rcases hcases with ⟨hd, hst, hlen⟩ | ⟨hd, hst, hlen⟩ | ⟨h1, h2, h3, hst⟩
  · refine ⟨?_, ?_, ?_, ?_, ?_⟩
    · rw [hst]
      exact List.ne_nil_of_length_pos (by rw [List.length_tail]; omega)
    · intro hx
      rw [hx] at hd
      exact absurd hd (by simp)
    · intro _
      simp only [lexer_inv, hpend, hst, List.length_tail]
      omega
    · intro hx
      rw [hx] at hd
      exact absurd hd (by simp)
    · intro hx
      exact absurd hd hx.2.1
  · refine ⟨?_, ?_, ?_, ?_, ?_⟩
    · rw [hst]; exact hne
    · intro hx
      rw [hx] at hd
      exact absurd hd (by simp)
    · intro hx
      rw [hx] at hd
      exact absurd hd (by simp)
    · intro _
      simp only [lexer_inv, hpend, hst]
      omega
    · intro hx
      exact absurd hd hx.2.2
  · refine ⟨?_, ?_, ?_, ?_, ?_⟩
    · rw [hst]; exact hne
    · intro hx; exact absurd hx h1
    · intro hx; exact absurd hx h2
    · intro hx; exact absurd hx h3
    · intro _
      simp only [lexer_inv, hpend, hst]
      omega

theorem lexer_next_token_inv (l : Lexer) (t : Token) (l' : Lexer)
    (hne : l.indentStack ≠ [])
    (h : lexer_next_token l = .ok (t, l')) :
    l'.indentStack ≠ [] ∧
    (t.type = .INDENT → lexer_inv l' = lexer_inv l + 1) ∧
    (t.type = .DEDENT → lexer_inv l = lexer_inv l' + 1) ∧
    (t.type = .EOF → lexer_inv l = 0 ∧ lexer_inv l' = 0) ∧
    ((t.type ≠ .INDENT ∧ t.type ≠ .DEDENT ∧ t.type ≠ .EOF) →
      lexer_inv l' = lexer_inv l) := by
  have hlenpos : 0 < l.indentStack.length := List.length_pos.mpr hne
  unfold lexer_next_token at h
  dsimp only [] at h
  split at h
  · -- pending DEDENT drain
    rename_i hp
    simp only [Except.ok.injEq, Prod.mk.injEq] at h
    obtain ⟨ht, hl⟩ := h
    subst ht; subst hl
    refine ⟨hne, ?_, ?_, ?_, ?_⟩
    · intro hx; exact absurd hx (by simp [make_token])
    · intro _
      simp only [lexer_inv]
      omega
    · intro hx; exact absurd hx (by simp [make_token])
    · intro hx; exact absurd hx.2.1 (by simp [make_token])
  · split at h
    · -- line start
      rename_i hp hstart
      split at h
      · -- INDENT push
        simp only [Except.ok.injEq, Prod.mk.injEq] at h
        obtain ⟨ht, hl⟩ := h
        subst ht; subst hl
        refine ⟨by simp, ?_, ?_, ?_, ?_⟩
        · intro _
          simp only [lexer_inv, List.length_cons]
          omega
        · intro hx; exact absurd hx (by simp [make_token])
        · intro hx; exact absurd hx (by simp [make_token])
        · intro hx; exact absurd hx.1 (by simp [make_token])
      · split at h
        · -- width < top: pop levels, first DEDENT out
          rename_i hgt hlt
          split at h
          · exact Except.noConfusion h
          · rename_i hne2
            simp only [Except.ok.injEq, Prod.mk.injEq] at h
            obtain ⟨ht, hl⟩ := h
            subst ht
            have hstk : l'.indentStack =
                (pop_indents (count_indent_chars l.rest).1 l.indentStack).2 := by
              rw [← hl]
            have hpnd : l'.pendingDedents =
                (pop_indents (count_indent_chars l.rest).1 l.indentStack).1 - 1 := by
              rw [← hl]
            have hp0 : l.pendingDedents = 0 := by omega
            have hdrop := pop_indents_snd
              (count_indent_chars l.rest).1 l.indentStack
            have hplt := pop_indents_lt
              (count_indent_chars l.rest).1 l.indentStack hne
            have hpos : 1 ≤ (pop_indents (count_indent_chars l.rest).1
                l.indentStack).1 :=
              pop_indents_pos (count_indent_chars l.rest).1 l.indentStack hne
                hlt (by omega)
            have hlen2 : (pop_indents (count_indent_chars l.rest).1
                  l.indentStack).2.length =
                l.indentStack.length -
                  (pop_indents (count_indent_chars l.rest).1 l.indentStack).1 := by
              rw [hdrop, List.length_drop]
            refine ⟨?_, ?_, ?_, ?_, ?_⟩
            · rw [hstk]
              exact List.ne_nil_of_length_pos (by rw [hlen2]; omega)
            · intro hx; exact absurd hx (by simp [make_token])
            · intro _
              simp only [lexer_inv, hstk, hpnd, hlen2, hp0]
              omega
            · intro hx; exact absurd hx (by simp [make_token])
            · intro hx; exact absurd hx.2.1 (by simp [make_token])
        · -- same width: fall through to the scan loop
          rename_i hgt hge
          have hp0 : l.pendingDedents = 0 := by omega
          rw [hp0] at h
          have hsi := lexer_scan_chars_inv _ _ _ _ _ _ hne h
          refine ⟨hsi.1, ?_, ?_, ?_, ?_⟩
          · intro hx; exact (hsi.2.1 hx).elim
          · intro hx
            have hthis := hsi.2.2.1 hx
            simp only [lexer_inv, hp0] at hthis ⊢
            omega
          · intro hx
            obtain ⟨h1, h2⟩ := hsi.2.2.2.1 hx
            refine ⟨?_, h2⟩
            simp only [lexer_inv, hp0]
            omega
          · intro hx
            have hthis := hsi.2.2.2.2 hx
            simp only [lexer_inv, hp0] at hthis ⊢
            omega
    · -- mid-line: plain scan
      rename_i hp hstart
      have hp0 : l.pendingDedents = 0 := by omega
      rw [hp0] at h
      have hsi := lexer_scan_chars_inv _ _ _ _ _ _ hne h
      refine ⟨hsi.1, ?_, ?_, ?_, ?_⟩
      · intro hx; exact (hsi.2.1 hx).elim
      · intro hx
        have hthis := hsi.2.2.1 hx
        simp only [lexer_inv, hp0] at hthis ⊢
        omega
      · intro hx
        obtain ⟨h1, h2⟩ := hsi.2.2.2.1 hx
        refine ⟨?_, h2⟩
        simp only [lexer_inv, hp0]
        omega
      · intro hx
        have hthis := hsi.2.2.2.2 hx
        simp only [lexer_inv, hp0] at hthis ⊢
        omega

theorem lexer_run_balance : ∀ (fuel : Nat) (l : Lexer) (toks : List Token),
    l.indentStack ≠ [] → lexer_run fuel l = .ok toks →
    count_tokens .DEDENT toks = count_tokens .INDENT toks + lexer_inv l := by
  intro fuel
  induction fuel with
  | zero =>
    intro l toks _ h
    exact absurd h (by simp [lexer_run])
  | succ n ih =>
    intro l toks hne h
    rw [lexer_run] at h
    cases hn : lexer_next_token l with
    | error e => rw [hn] at h; exact Except.noConfusion h
    | ok tl =>
      obtain ⟨t, l'⟩ := tl
      rw [hn] at h
      dsimp only [] at h
      have hinv := lexer_next_token_inv l t l' hne hn
      by_cases ht : t.type = .EOF
      · rw [if_pos ht] at h
        replace h : Except.ok ([] : List Token) = Except.ok toks := h
        simp only [Except.ok.injEq] at h
        subst h
        have := (hinv.2.2.2.1 ht).1
        simp [count_tokens, this]
      · rw [if_neg ht] at h
        cases hr : lexer_run n l' with
        | error e => rw [hr] at h; exact Except.noConfusion h
        | ok ts =>
          rw [hr] at h
          replace h : Except.ok (t :: ts) = Except.ok toks := h
          simp only [Except.ok.injEq] at h
          subst h
          have ihh := ih l' ts hinv.1 hr
          by_cases hI : t.type = .INDENT
          · have := hinv.2.1 hI
            simp only [count_tokens, List.countP_cons] at ihh ⊢
            simp_all
            omega
          · by_cases hD : t.type = .DEDENT
            · have := hinv.2.2.1 hD
              simp only [count_tokens, List.countP_cons] at ihh ⊢
              simp_all
              omega
            · have := hinv.2.2.2.2 ⟨hI, hD, ht⟩
              simp only [count_tokens, List.countP_cons] at ihh ⊢
              simp_all

/-! ## Claim C3 -/

/-- C3: at a logical-line start whose leading-whitespace width is strictly
below the stack top, `lexer_next_token` pops levels while the width is
below the top (`pop_indents`); if the width then differs from the new top
it aborts with `Indentation error at line L`, and otherwise it returns the
first DEDENT immediately, leaving `popped - 1` pending DEDENTs that drain
one per subsequent call — exactly one DEDENT per popped level. -/
theorem C3_dedent_pop_chain (l : Lexer)
    (hpend : l.pendingDedents = 0) (hstart : l.atLineStart = true)
    (hbot : l.indentStack.getLast? = some 0)
    (hlt : (count_indent_chars l.rest).1 < l.indentStack.headD 0) :
    ((count_indent_chars l.rest).1 ≠
        (pop_indents (count_indent_chars l.rest).1 l.indentStack).2.headD 0 →
      lexer_next_token l =
        .error ("Indentation error at line " ++ toString l.line)) ∧
    ((count_indent_chars l.rest).1 =
        (pop_indents (count_indent_chars l.rest).1 l.indentStack).2.headD 0 →
      1 ≤ (pop_indents (count_indent_chars l.rest).1 l.indentStack).1 ∧
      lexer_next_token l = .ok
        (make_token l.line (l.col + (count_indent_chars l.rest).1) .DEDENT "",
         { rest := (count_indent_chars l.rest).2, line := l.line,
           col := l.col + (count_indent_chars l.rest).1,
           indentStack :=
             (pop_indents (count_indent_chars l.rest).1 l.indentStack).2,
           pendingDedents :=
             (pop_indents (count_indent_chars l.rest).1 l.indentStack).1 - 1,
           atLineStart := false })) ∧
    (∀ (m : Lexer) (n : Nat), m.pendingDedents = n + 1 →
      lexer_next_token m =
        .ok (make_token m.line m.col .DEDENT "",
             { m with pendingDedents := n })) := by
  have hlen : l.indentStack ≠ [] := by
    intro hcon
    rw [hcon] at hbot
    simp at hbot
  refine ⟨?_, ?_, ?_⟩
  · intro hne
    unfold lexer_next_token
    rw [if_neg (by omega)]
    rw [if_pos hstart]
    simp only [hpend]
    rw [if_neg (by omega)]
    rw [if_pos hlt]
    rw [if_pos hne]
  · intro heq
    refine ⟨pop_indents_pos _ _ hlen hlt (by omega), ?_⟩
    unfold lexer_next_token
    rw [if_neg (by omega)]
    rw [if_pos hstart]
    simp only [hpend]
    rw [if_neg (by omega)]
    rw [if_pos hlt]
    rw [if_neg (by omega)]
  · intro m n hm
    unfold lexer_next_token
    rw [if_pos (by omega)]
    simp [hm]

/-- Witness for C3: dedenting from stack [4, 0] to width 2 misaligns and
errors; dedenting a two-level stack [4, 2, 0] to width 0 pops twice,
emitting one DEDENT now and queueing one more. -/
theorem C3_dedent_pop_chain_witness :
    lexer_next_token
        { rest := "  x".data, line := 3, col := 1, indentStack := [4, 0],
          pendingDedents := 0, atLineStart := true } =
      .error "Indentation error at line 3" ∧
    lexer_next_token
        { rest := "x".data, line := 4, col := 1, indentStack := [4, 2, 0],
          pendingDedents := 0, atLineStart := true } =
      .ok (make_token 4 1 .DEDENT "",
           { rest := "x".data, line := 4, col := 1, indentStack := [0],
             pendingDedents := 1, atLineStart := false }) ∧
    lexer_next_token
        { rest := "x".data, line := 4, col := 1, indentStack := [0],
          pendingDedents := 1, atLineStart := false } =
      .ok (make_token 4 1 .DEDENT "",
           { rest := "x".data, line := 4, col := 1, indentStack := [0],
             pendingDedents := 0, atLineStart := false }) := by
  refine ⟨?_, ?_, ?_⟩
  · exact (C3_dedent_pop_chain
      { rest := "  x".data, line := 3, col := 1, indentStack := [4, 0],
        pendingDedents := 0, atLineStart := true }
      rfl rfl (by decide) (by decide)).1 (by decide)
  · exact ((C3_dedent_pop_chain
      { rest := "x".data, line := 4, col := 1, indentStack := [4, 2, 0],
        pendingDedents := 0, atLineStart := true }
      rfl rfl (by decide) (by decide)).2.1 (by decide)).2
  · exact (C3_dedent_pop_chain
      { rest := "  x".data, line := 3, col := 1, indentStack := [4, 0],
        pendingDedents := 0, atLineStart := true }
      rfl rfl (by decide) (by decide)).2.2
      { rest := "x".data, line := 4, col := 1, indentStack := [0],
        pendingDedents := 1, atLineStart := false } 0 rfl

/-! ## Claim C4 -/

/-- C4: on every input the lexer completes (reaches its EOF token without
a lexical error), the number of INDENT tokens it emitted equals the number
of DEDENT tokens emitted before EOF, the end-of-input drain included. -/
theorem C4_indent_dedent_balance (source : String) (fuel : Nat)
    (toks : List Token)
    (h : lexer_run fuel (lexer_create source) = .ok toks) :
    count_tokens .INDENT toks = count_tokens .DEDENT toks := by
  have hb := lexer_run_balance fuel (lexer_create source) toks
    (by simp [lexer_create]) h
  simp [lexer_inv, lexer_create] at hb
  omega

/-- Witness for C4: the input `"a\n  b\nc"` lexes to a stream with one
INDENT and one DEDENT before EOF. -/
theorem C4_indent_dedent_balance_witness :
    count_tokens .INDENT
        [⟨.IDENT, "a", 1, 2⟩, ⟨.NEWLINE, "\n", 2, 1⟩, ⟨.INDENT, "", 2, 3⟩,
         ⟨.IDENT, "b", 2, 4⟩, ⟨.NEWLINE, "\n", 3, 1⟩, ⟨.DEDENT, "", 3, 1⟩,
         ⟨.IDENT, "c", 3, 2⟩] =
      count_tokens .DEDENT
        [⟨.IDENT, "a", 1, 2⟩, ⟨.NEWLINE, "\n", 2, 1⟩, ⟨.INDENT, "", 2, 3⟩,
         ⟨.IDENT, "b", 2, 4⟩, ⟨.NEWLINE, "\n", 3, 1⟩, ⟨.DEDENT, "", 3, 1⟩,
         ⟨.IDENT, "c", 3, 2⟩] :=
  C4_indent_dedent_balance "a\n  b\nc" 50 _ (by rfl)

/-! ## Claim C5 -/

/-- C5 (code bug): the lexer has no handling for `#` at all — the `#`
itself is silently skipped as an unknown character, and the remaining text
of the line is tokenized normally.  On `"x # y"` the claimed
comment-to-end-of-line behaviour would produce only the IDENT `x`, but the
lexer also emits the IDENT `y` from inside the comment. -/
theorem C5_comment_text_is_tokenized :
    lexer_run 50 (lexer_create "x # y") =
      .ok [⟨.IDENT, "x", 1, 2⟩, ⟨.IDENT, "y", 1, 6⟩] ∧
    [⟨.IDENT, "x", 1, 2⟩, ⟨.IDENT, "y", 1, 6⟩] ≠
      ([⟨.IDENT, "x", 1, 2⟩] : List Token) := by
  constructor
  · rfl
  · decide

/-! ## Claim C7 -/

theorem scenario3_lex :
    lexer_run_eof 200 (lexer_create scenario3_source) = .ok scenario3_tokens := by
  rfl

theorem scenario3_parse :
    parse_program 400 scenario3_tokens = .ok scenario3_program := by
  rfl

theorem scenario3_sema :
    sema_check_program scenario3_program =
      .error ⟨⟨.IDENT, "x", 3, 6⟩, "cannot assign to immutable variable"⟩ := by
  rfl

theorem scenario3_front_result :
    compiler_front 200 400 scenario3_source =
      .error "[line 3:6] Semantic error: cannot assign to immutable variable" := by
  unfold compiler_front
  rw [scenario3_lex]
  dsimp only []
  rw [scenario3_parse]
  dsimp only []
  rw [scenario3_sema]
  rfl

/-- C7 counterexample: compiling the exact scenario-3 program aborts with
`[line 3:6] Semantic error: cannot assign to immutable variable`, not with
the claimed column 5: `make_token` records `l->col` after the lexeme `x`
was consumed, so the token column is 6. -/
theorem C7_column_counterexample :
    compiler_front 200 400 scenario3_source =
      .error "[line 3:6] Semantic error: cannot assign to immutable variable" ∧
    ("[line 3:6] Semantic error: cannot assign to immutable variable" ≠
      "[line 3:5] Semantic error: cannot assign to immutable variable") :=
  ⟨scenario3_front_result, by decide⟩

/-- C7 amended: the scenario-3 program makes sema abort compilation
(exit status 1, modelled by `Except.error`) with exactly
`[line 3:6] Semantic error: cannot assign to immutable variable`; the
diagnostic column of the assignment target `x` (source column 5) is 6,
the column recorded just past the token. -/
theorem C7_immutable_assign_diag :
    compiler_front 200 400 scenario3_source =
      .error "[line 3:6] Semantic error: cannot assign to immutable variable" :=
  scenario3_front_result

/-! ## Claim C8 -/

/-- C8 counterexample: inside brackets (depth 1) a token outside the
allowed set — here the INT `5` — is appended to the fragment instead of
raising a parse error: collecting `maybe[5]` with terminator `=`
succeeds. -/
theorem C8_bracket_content_accepted :
    parser_collect_type
        (parser_init
          [⟨.IDENT, "maybe", 1, 6⟩, ⟨.LBRACKET, "[", 1, 7⟩, ⟨.INT, "5", 1, 8⟩,
           ⟨.RBRACKET, "]", 1, 9⟩, ⟨.EQUAL, "=", 1, 11⟩]) [.EQUAL] =
      .ok ("maybe[5]",
           { previous := ⟨.RBRACKET, "]", 1, 9⟩,
             toks := [⟨.EQUAL, "=", 1, 11⟩] }) := by
  rfl

/-- C8 amended: while collecting a type fragment, a token other than
IDENT, `null`, `,`, `[`, `]`, `.` causes the located error
`unexpected token in type` only at bracket depth 0 (at depth > 0 any
non-EOF, non-bracket token is appended to the fragment and collection
continues); a `]` at depth 0 causes `unmatched ']' in type`, and a
NEWLINE or DEDENT at depth 0 that is not a terminator causes
`unexpected line break in type`. -/
theorem C8_collect_type_errors :
    (∀ (terminators : List TokenType) (builder : String) (collected : Bool)
        (prev t : Token) (rest : List Token),
      t.type ≠ .EOF →
      ¬(t.type = .NEWLINE ∨ t.type = .DEDENT) →
      token_is_terminator t.type terminators = false →
      ¬(t.type = .IDENT ∨ t.type = .NULL ∨ t.type = .COMMA ∨
        t.type = .LBRACKET ∨ t.type = .RBRACKET ∨ t.type = .DOT) →
      parser_collect_type_loop terminators builder 0 collected prev (t :: rest) =
        .error (parser_error t "unexpected token in type")) ∧
    (∀ (terminators : List TokenType) (builder : String) (collected : Bool)
        (prev t : Token) (rest : List Token),
      t.type = .RBRACKET →
      token_is_terminator t.type terminators = false →
      parser_collect_type_loop terminators builder 0 collected prev (t :: rest) =
        .error (parser_error t "unmatched ']' in type")) ∧
    (∀ (terminators : List TokenType) (builder : String) (collected : Bool)
        (prev t : Token) (rest : List Token),
      (t.type = .NEWLINE ∨ t.type = .DEDENT) →
      token_is_terminator t.type terminators = false →
      parser_collect_type_loop terminators builder 0 collected prev (t :: rest) =
        .error (parser_error t "unexpected line break in type")) ∧
    (∀ (terminators : List TokenType) (builder : String) (depth : Nat)
        (collected : Bool) (prev t : Token) (rest : List Token),
      t.type ≠ .EOF → t.type ≠ .LBRACKET → t.type ≠ .RBRACKET →
      parser_collect_type_loop terminators builder (depth + 1) collected prev
          (t :: rest) =
        parser_collect_type_loop terminators (builder ++ t.lexeme) (depth + 1)
          true t rest) := by
  refine ⟨?_, ?_, ?_, ?_⟩
  · intro terminators builder collected prev t rest heof hnl hterm hna
    have hlb : t.type ≠ .LBRACKET := by intro hx; exact hna (by simp [hx])
    have hrb : t.type ≠ .RBRACKET := by intro hx; exact hna (by simp [hx])
    rw [parser_collect_type_loop]
    dsimp only []
    rw [if_neg heof, if_neg (by simp [hnl]), if_neg (by simp [hterm]),
      if_neg hlb, if_neg hrb]
    dsimp only []
    rw [if_pos ⟨hna, rfl⟩]
  · intro terminators builder collected prev t rest hty hterm
    rw [parser_collect_type_loop]
    dsimp only []
    rw [if_neg (by simp [hty]), if_neg (by simp [hty]),
      if_neg (by simp [hterm]), if_neg (by simp [hty]), if_pos hty, if_pos rfl]
  · intro terminators builder collected prev t rest hty hterm
    have heof : t.type ≠ .EOF := by rcases hty with h | h <;> simp [h]
    rw [parser_collect_type_loop]
    dsimp only []
    rw [if_neg heof, if_pos ⟨hty, rfl⟩, if_pos (by simp [hterm])]
  · intro terminators builder depth collected prev t rest heof hlb hrb
    rw [parser_collect_type_loop]
    dsimp only []
    rw [if_neg heof, if_neg (by simp), if_neg (by simp),
      if_neg hlb, if_neg hrb]
    dsimp only []
    rw [if_neg (by simp)]

/-- Witness for C8: a `*` at depth 0 errors, `]` at depth 0 errors, a
NEWLINE at depth 0 errors, and a `*` at depth 1 is appended. -/
theorem C8_collect_type_errors_witness :
    parser_collect_type_loop [.EQUAL] "t" 0 true padEof
        [⟨.STAR, "*", 1, 3⟩] =
      .error (parser_error ⟨.STAR, "*", 1, 3⟩ "unexpected token in type") ∧
    parser_collect_type_loop [.EQUAL] "t" 0 true padEof
        [⟨.RBRACKET, "]", 1, 3⟩] =
      .error (parser_error ⟨.RBRACKET, "]", 1, 3⟩ "unmatched ']' in type") ∧
    parser_collect_type_loop [.EQUAL] "t" 0 true padEof
        [⟨.NEWLINE, "\n", 2, 1⟩] =
      .error (parser_error ⟨.NEWLINE, "\n", 2, 1⟩
        "unexpected line break in type") ∧
    parser_collect_type_loop [.EQUAL] "maybe[" 1 true padEof
        [⟨.STAR, "*", 1, 7⟩] =
      parser_collect_type_loop [.EQUAL] "maybe[*" 1 true ⟨.STAR, "*", 1, 7⟩
        [] := by
  refine ⟨?_, ?_, ?_, ?_⟩
  · exact C8_collect_type_errors.1 [.EQUAL] "t" true padEof ⟨.STAR, "*", 1, 3⟩
      [] (by decide) (by decide) (by decide) (by decide)
  · exact C8_collect_type_errors.2.1 [.EQUAL] "t" true padEof
      ⟨.RBRACKET, "]", 1, 3⟩ [] (by decide) (by decide)
  · exact C8_collect_type_errors.2.2.1 [.EQUAL] "t" true padEof
      ⟨.NEWLINE, "\n", 2, 1⟩ [] (by decide) (by decide)
  · exact C8_collect_type_errors.2.2.2 [.EQUAL] "maybe[" 0 true padEof
      ⟨.STAR, "*", 1, 7⟩ [] (by decide) (by decide) (by decide)

/-! ## Claim C10 -/

/-- C10 counterexample: the two classifications are not extensionally
equal.  On the type name `results` sema's check fails (the character
after `result` is `s`, not `[` or end of string) while codegen's bare
prefix test succeeds; likewise `maybes` for the maybe pair. -/
theorem C10_classifications_disagree :
    type_is_result (some "results") = false ∧
    cg_type_is_result (some "results") = true ∧
    type_is_maybe (some "maybes") = false ∧
    cg_type_is_maybe (some "maybes") = true := by
  decide

/-- C10 amended: sema's classification refines codegen's — it is
codegen's bare prefix test strengthened by the requirement that the
character right after the prefix be `[` or the end of the name.  Hence
sema-result implies codegen-result (and likewise for maybe), but not
conversely. -/
theorem C10_result_maybe_refinement :
    (∀ s : String,
      type_is_result (some s) =
        (cg_type_is_result (some s) &&
          type_char_after_ok s ("result".data.length))) ∧
    (∀ s : String,
      type_is_maybe (some s) =
        (cg_type_is_maybe (some s) &&
          type_char_after_ok s ("maybe".data.length))) ∧
    (∀ t : Option String, type_is_result t = true → cg_type_is_result t = true) ∧
    (∀ t : Option String, type_is_maybe t = true → cg_type_is_maybe t = true) ∧
    type_is_result none = cg_type_is_result none ∧
    type_is_maybe none = cg_type_is_maybe none := by
  refine ⟨fun s => rfl, fun s => rfl, ?_, ?_, rfl, rfl⟩
  · intro t h
    cases t with
    | none => exact h
    | some s =>
      simp only [type_is_result, type_starts_with, cg_type_is_result,
        Bool.and_eq_true] at h ⊢
      exact h.1
  · intro t h
    cases t with
    | none => exact h
    | some s =>
      simp only [type_is_maybe, type_starts_with, cg_type_is_maybe,
        Bool.and_eq_true] at h ⊢
      exact h.1

/-- Witness for C10: on `result[int]` and `maybe[int]` the sema checks
hold, so by the refinement the codegen checks hold too. -/
theorem C10_result_maybe_refinement_witness :
    cg_type_is_result (some "result[int]") = true ∧
    cg_type_is_maybe (some "maybe[int]") = true :=
  ⟨C10_result_maybe_refinement.2.2.1 (some "result[int]") (by decide),
   C10_result_maybe_refinement.2.2.2.1 (some "maybe[int]") (by decide)⟩

/-! ## Claim C6 -/

/-- C6: an expression statement whose expression is a call to an
identifier resolving to a registered function with a `result`-prefixed
return type makes sema fail with the located error
`result-returning function must not be ignored` (at the call token); if
the resolved function's return type is not `result`-classified the rule
accepts; and `sema_check_statement` on an expression statement
propagates exactly the unused-result error when the expression itself
checks. -/
theorem C6_unused_result :
    (∀ (ctx : SemaContext) (tok itok : Token) (iname : String)
        (args : List Expr) (fn : FunctionSymbol),
      sema_lookup_function ctx iname = some fn →
      type_is_result fn.return_type = true →
      sema_check_unused_result ctx
          (some (.call tok (.identifier itok iname) args)) =
        .error ⟨tok, "result-returning function must not be ignored"⟩) ∧
    (∀ (ctx : SemaContext) (tok itok : Token) (iname : String)
        (args : List Expr) (fn : FunctionSymbol),
      sema_lookup_function ctx iname = some fn →
      type_is_result fn.return_type = false →
      sema_check_unused_result ctx
          (some (.call tok (.identifier itok iname) args)) = .ok ()) ∧
    (∀ (ctx : SemaContext) (stok : Token) (e : Option Expr)
        (err : SemaError),
      sema_check_expression ctx e = .ok () →
      sema_check_unused_result ctx e = .error err →
      sema_check_statement ctx (.exprStmt stok e) = .error err) := by
  refine ⟨?_, ?_, ?_⟩
  · intro ctx tok itok iname args fn hlook hres
    simp only [sema_check_unused_result]
    rw [hlook]
    dsimp only []
    rw [if_pos hres]
  · intro ctx tok itok iname args fn hlook hres
    simp only [sema_check_unused_result]
    rw [hlook]
    dsimp only []
    rw [if_neg (by simp [hres])]
  · intro ctx stok e err hexpr herr
    have hdef : sema_check_statement ctx (.exprStmt stok e) =
        (match sema_check_expression ctx e with
         | .error er => .error er
         | .ok () =>
           match sema_check_unused_result ctx e with
           | .error er => .error er
           | .ok () => .ok ctx) := rfl
    rw [hdef, hexpr]
    dsimp only []
    rw [herr]

/-- Witness for C6: in `wit_result_ctx`, ignoring a call to `f`
(returning `result[int]`) errors — both at the rule and through
`sema_check_statement` — while ignoring a call to `h0` (returning
`null`) is accepted. -/
theorem C6_unused_result_witness :
    sema_check_unused_result wit_result_ctx
        (some (.call wit_token (.identifier wit_token "f") [])) =
      .error ⟨wit_token, "result-returning function must not be ignored"⟩ ∧
    sema_check_unused_result wit_result_ctx
        (some (.call wit_token (.identifier wit_token "h0") [])) = .ok () ∧
    sema_check_statement wit_result_ctx
        (.exprStmt wit_token
          (some (.call wit_token (.identifier wit_token "f") []))) =
      .error ⟨wit_token, "result-returning function must not be ignored"⟩ :=
  ⟨C6_unused_result.1 wit_result_ctx wit_token wit_token "f" []
      ⟨"f", some "result[int]", wit_token⟩ (by rfl) (by rfl),
   C6_unused_result.2.1 wit_result_ctx wit_token wit_token "h0" []
      ⟨"h0", some "null", wit_token⟩ (by rfl) (by rfl),
   C6_unused_result.2.2 wit_result_ctx wit_token
      (some (.call wit_token (.identifier wit_token "f") []))
      ⟨wit_token, "result-returning function must not be ignored"⟩
      (by rfl) (by rfl)⟩

/-! ## Claim C2 -/

/-- Success of `sema_note_flow_usage` computes exactly `flow_join` of the
current mode with the contributed mode. -/
theorem sema_note_flow_usage_ok_join (ctx : SemaContext) (mode : FlowMode)
    (tok : Token) (ctx' : SemaContext)
    (h : sema_note_flow_usage ctx mode tok = .ok ctx') :
    flow_join ctx.current_flow_mode mode = some ctx'.current_flow_mode := by
  simp only [sema_note_flow_usage] at h
  split at h
  · injection h with h2
    subst h2
    rename_i hm
    simp [flow_join, hm]
  · rename_i hm
    split at h
    · injection h with h2
      subst h2
      rename_i hcm
      simp [flow_join, hm, hcm]
    · rename_i hcm
      split at h
      · exact absurd h (by simp)
      · injection h with h2
        subst h2
        rename_i hne
        have hcmm : ctx.current_flow_mode = mode := not_not.mp hne
        simp [flow_join, hm, hcm, hcmm]

/-- A contribution conflicting under `flow_join` makes
`sema_note_flow_usage` fail with exactly the mixing error. -/
theorem sema_note_flow_usage_none_err (ctx : SemaContext) (mode : FlowMode)
    (tok : Token)
    (h : flow_join ctx.current_flow_mode mode = none) :
    sema_note_flow_usage ctx mode tok =
      .error ⟨tok, "cannot mix maybe and result in the same function"⟩ := by
  simp only [flow_join] at h
  split at h
  · exact absurd h (by simp)
  · split at h
    · exact absurd h (by simp)
    · split at h
      · rename_i hc hm hne
        simp only [sema_note_flow_usage]
        rw [if_neg hc, if_neg hm, if_pos hne]
      · exact absurd h (by simp)

/-- `sema_add_var` never changes the current flow mode. -/
theorem sema_add_var_flow (ctx : SemaContext) (nm : String) (mu : Bool)
    (tn : Option String) (tok : Token) (ctx' : SemaContext)
    (h : sema_add_var ctx nm mu tn tok = .ok ctx') :
    ctx'.current_flow_mode = ctx.current_flow_mode := by
  simp only [sema_add_var] at h
  split at h
  · injection h with h2
    subst h2
    by_cases he : ctx.scopes.isEmpty <;> simp [he, sema_push_scope]
  · split at h
    · exact absurd h (by simp)
    · injection h with h2
      subst h2
      by_cases he : ctx.scopes.isEmpty <;> simp [he, sema_push_scope]

/-- One successful `flow_join` step peels a contribution off a fold. -/
theorem flow_fold_cons (m c m1 : FlowMode) (l : List FlowMode)
    (h : flow_join m c = some m1) :
    flow_fold m (c :: l) = flow_fold m1 l := by
  simp only [flow_fold]
  rw [h]

/-- A successful fold over a prefix continues over an appended suffix. -/
theorem flow_fold_append (a b : List FlowMode) (m m' : FlowMode)
    (h : flow_fold m a = some m') :
    flow_fold m (a ++ b) = flow_fold m' b := by
  induction a generalizing m with
  | nil =>
    simp only [flow_fold] at h
    injection h with h2
    subst h2
    simp
  | cons c rest ih =>
    simp only [List.cons_append, flow_fold] at h ⊢
    cases hj : flow_join m c with
    | none => rw [hj] at h; exact absurd h (by simp)
    | some m1 =>
      rw [hj] at h
      dsimp only [] at h ⊢
      exact ih m1 h

mutual

/-- If a statement checks, the flow mode after it is the `flow_join` fold
of the statement's contributed modes over the flow mode before it. -/
theorem sema_stmt_flow (s : Stmt) :
    ∀ (ctx ctx' : SemaContext), sema_check_statement ctx s = .ok ctx' →
      flow_fold ctx.current_flow_mode (stmt_flow_modes s) =
        some ctx'.current_flow_mode :=
  match s with
  | .varDecl tok mu nm tn ini => by
    intro ctx ctx' h
    have hdef : sema_check_statement ctx (.varDecl tok mu nm tn ini) =
        (match sema_require_supported_type (some tn) tok true with
         | .error e => .error e
         | .ok () =>
           match sema_note_flow_usage ctx (flow_mode_from_type (some tn))
               tok with
           | .error e => .error e
           | .ok ctx1 =>
             match sema_add_var ctx1 nm mu (some tn) tok with
             | .error e => .error e
             | .ok ctx2 =>
               match sema_check_expression ctx2 ini with
               | .error e => .error e
               | .ok () => .ok ctx2) := rfl
    rw [hdef] at h
    cases hreq : sema_require_supported_type (some tn) tok true with
    | error e => rw [hreq] at h; exact absurd h (by simp)
    | ok u =>
      cases u
      rw [hreq] at h
      dsimp only [] at h
      cases hnote : sema_note_flow_usage ctx (flow_mode_from_type (some tn))
          tok with
      | error e => rw [hnote] at h; exact absurd h (by simp)
      | ok ctx1 =>
        rw [hnote] at h
        dsimp only [] at h
        cases hadd : sema_add_var ctx1 nm mu (some tn) tok with
        | error e => rw [hadd] at h; exact absurd h (by simp)
        | ok ctx2 =>
          rw [hadd] at h
          dsimp only [] at h
          cases hexp : sema_check_expression ctx2 ini with
          | error e => rw [hexp] at h; exact absurd h (by simp)
          | ok u =>
            cases u
            rw [hexp] at h
            dsimp only [] at h
            injection h with h2
            have hj := sema_note_flow_usage_ok_join ctx _ tok ctx1 hnote
            have ha := sema_add_var_flow ctx1 nm mu (some tn) tok ctx2 hadd
            have hj2 : flow_join ctx.current_flow_mode
                (flow_mode_from_type (some tn)) =
                some ctx'.current_flow_mode := by
              rw [hj, ← h2, ha]
            show flow_fold ctx.current_flow_mode
                [flow_mode_from_type (some tn)] =
              some ctx'.current_flow_mode
            rw [flow_fold_cons _ _ _ _ hj2]
            rfl
  | .assign tok target value => by
    intro ctx ctx' h
    have hdef : sema_check_statement ctx (.assign tok target value) =
        (match sema_lookup_var ctx target with
         | none => .error ⟨tok, "assignment to undeclared variable"⟩
         | some symbol =>
           if ¬symbol.is_mutable then
             .error ⟨tok, "cannot assign to immutable variable"⟩
           else
             match sema_check_expression ctx (some value) with
             | .error e => .error e
             | .ok () => .ok ctx) := rfl
    rw [hdef] at h
    cases hl : sema_lookup_var ctx target with
    | none => rw [hl] at h; exact absurd h (by simp)
    | some symbol =>
      rw [hl] at h
      dsimp only [] at h
      by_cases hm : symbol.is_mutable = true
      · rw [if_neg (by simp [hm])] at h
        cases hexp : sema_check_expression ctx (some value) with
        | error e => rw [hexp] at h; exact absurd h (by simp)
        | ok u =>
          cases u
          rw [hexp] at h
          dsimp only [] at h
          injection h with h2
          subst h2
          rfl
      · rw [if_pos hm] at h
        exact absurd h (by simp)
  | .ifStmt tok cond tb (some els) => by
    intro ctx ctx' h
    have hdef : sema_check_statement ctx (.ifStmt tok cond tb (some els)) =
        (match sema_check_expression ctx (some cond) with
         | .error e => .error e
         | .ok () =>
           match sema_check_statements (sema_push_scope ctx) tb with
           | .error e => .error e
           | .ok ctx2 =>
             match sema_check_statements
                 (sema_push_scope (sema_pop_scope ctx2)) els with
             | .error e => .error e
             | .ok ctx3 => .ok (sema_pop_scope ctx3)) := rfl
    rw [hdef] at h
    cases hc : sema_check_expression ctx (some cond) with
    | error e => rw [hc] at h; exact absurd h (by simp)
    | ok u =>
      cases u
      rw [hc] at h
      dsimp only [] at h
      cases htb : sema_check_statements (sema_push_scope ctx) tb with
      | error e => rw [htb] at h; exact absurd h (by simp)
      | ok ctx2 =>
        rw [htb] at h
        dsimp only [] at h
        cases hel : sema_check_statements
            (sema_push_scope (sema_pop_scope ctx2)) els with
        | error e => rw [hel] at h; exact absurd h (by simp)
        | ok ctx3 =>
          rw [hel] at h
          dsimp only [] at h
          injection h with h2
          have h1 : flow_fold ctx.current_flow_mode (stmts_flow_modes tb) =
              some ctx2.current_flow_mode :=
            sema_stmts_flow tb (sema_push_scope ctx) ctx2 htb
          have h3 : flow_fold ctx2.current_flow_mode (stmts_flow_modes els) =
              some ctx3.current_flow_mode :=
            sema_stmts_flow els (sema_push_scope (sema_pop_scope ctx2)) ctx3 hel
          show flow_fold ctx.current_flow_mode
              (stmts_flow_modes tb ++ stmts_flow_modes els) =
            some ctx'.current_flow_mode
          rw [flow_fold_append _ _ _ _ h1, h3, ← h2]
          rfl
  | .ifStmt tok cond tb none => by
    intro ctx ctx' h
    have hdef : sema_check_statement ctx (.ifStmt tok cond tb none) =
        (match sema_check_expression ctx (some cond) with
         | .error e => .error e
         | .ok () =>
           match sema_check_statements (sema_push_scope ctx) tb with
           | .error e => .error e
           | .ok ctx2 => .ok (sema_pop_scope ctx2)) := rfl
    rw [hdef] at h
    cases hc : sema_check_expression ctx (some cond) with
    | error e => rw [hc] at h; exact absurd h (by simp)
    | ok u =>
      cases u
      rw [hc] at h
      dsimp only [] at h
      cases htb : sema_check_statements (sema_push_scope ctx) tb with
      | error e => rw [htb] at h; exact absurd h (by simp)
      | ok ctx2 =>
        rw [htb] at h
        dsimp only [] at h
        injection h with h2
        have h1 : flow_fold ctx.current_flow_mode (stmts_flow_modes tb) =
            some ctx2.current_flow_mode :=
          sema_stmts_flow tb (sema_push_scope ctx) ctx2 htb
        show flow_fold ctx.current_flow_mode
            (stmts_flow_modes tb ++ []) =
          some ctx'.current_flow_mode
        rw [List.append_nil, h1, ← h2]
        rfl
  | .forStmt tok a b c => by
    intro ctx ctx' h
    have hdef : sema_check_statement ctx (.forStmt tok a b c) =
        .error ⟨tok, "'for in' is not yet supported for this type"⟩ := rfl
    rw [hdef] at h
    exact absurd h (by simp)
  | .returnStmt tok value => by
    intro ctx ctx' h
    have hdef : sema_check_statement ctx (.returnStmt tok value) =
        (if ¬ctx.in_function then
           .error ⟨tok, "return outside of function"⟩
         else
           match sema_check_expression ctx value with
           | .error e => .error e
           | .ok () => .ok ctx) := rfl
    rw [hdef] at h
    by_cases hin : ctx.in_function = true
    · rw [if_neg (by simp [hin])] at h
      cases hexp : sema_check_expression ctx value with
      | error e => rw [hexp] at h; exact absurd h (by simp)
      | ok u =>
        cases u
        rw [hexp] at h
        dsimp only [] at h
        injection h with h2
        subst h2
        rfl
    · rw [if_pos hin] at h
      exact absurd h (by simp)
  | .exprStmt tok expr => by
    intro ctx ctx' h
    have hdef : sema_check_statement ctx (.exprStmt tok expr) =
        (match sema_check_expression ctx expr with
         | .error e => .error e
         | .ok () =>
           match sema_check_unused_result ctx expr with
           | .error e => .error e
           | .ok () => .ok ctx) := rfl
    rw [hdef] at h
    cases hexp : sema_check_expression ctx expr with
    | error e => rw [hexp] at h; exact absurd h (by simp)
    | ok u =>
      cases u
      rw [hexp] at h
      dsimp only [] at h
      cases hur : sema_check_unused_result ctx expr with
      | error e => rw [hur] at h; exact absurd h (by simp)
      | ok u =>
        cases u
        rw [hur] at h
        dsimp only [] at h
        injection h with h2
        subst h2
        rfl
termination_by structural s

/-- If a statement list checks, the final flow mode is the `flow_join`
fold of all contributed modes in traversal order. -/
theorem sema_stmts_flow (stmts : List Stmt) :
    ∀ (ctx ctx' : SemaContext), sema_check_statements ctx stmts = .ok ctx' →
      flow_fold ctx.current_flow_mode (stmts_flow_modes stmts) =
        some ctx'.current_flow_mode :=
  match stmts with
  | [] => by
    intro ctx ctx' h
    have hdef : sema_check_statements ctx [] = .ok ctx := rfl
    rw [hdef] at h
    injection h with h2
    subst h2
    rfl
  | s :: rest => by
    intro ctx ctx' h
    have hdef : sema_check_statements ctx (s :: rest) =
        (match sema_check_statement ctx s with
         | .error e => .error e
         | .ok ctx1 => sema_check_statements ctx1 rest) := rfl
    rw [hdef] at h
    cases hs : sema_check_statement ctx s with
    | error e => rw [hs] at h; exact absurd h (by simp)
    | ok ctx1 =>
      rw [hs] at h
      dsimp only [] at h
      have h1 := sema_stmt_flow s ctx ctx1 hs
      have h2 := sema_stmts_flow rest ctx1 ctx' h
      show flow_fold ctx.current_flow_mode
          (stmt_flow_modes s ++ stmts_flow_modes rest) =
        some ctx'.current_flow_mode
      rw [flow_fold_append _ _ _ _ h1]
      exact h2
termination_by structural stmts

end

/-- If the parameter list checks, the flow mode after it is the fold of
the parameters' contributed modes. -/
theorem sema_check_function_params_flow (ps : List FunctionParam) :
    ∀ (ctx ctx' : SemaContext),
      sema_check_function_params ctx ps = .ok ctx' →
      flow_fold ctx.current_flow_mode
          (ps.map (fun p => flow_mode_from_type (some p.type_name))) =
        some ctx'.current_flow_mode := by
  induction ps with
  | nil =>
    intro ctx ctx' h
    simp only [sema_check_function_params] at h
    injection h with h2
    subst h2
    rfl
  | cons p rest ih =>
    intro ctx ctx' h
    simp only [sema_check_function_params] at h
    cases hreq : sema_require_supported_type (some p.type_name) p.token
        true with
    | error e => rw [hreq] at h; exact absurd h (by simp)
    | ok u =>
      cases u
      rw [hreq] at h
      dsimp only [] at h
      cases hnote : sema_note_flow_usage ctx
          (flow_mode_from_type (some p.type_name)) p.token with
      | error e => rw [hnote] at h; exact absurd h (by simp)
      | ok ctx1 =>
        rw [hnote] at h
        dsimp only [] at h
        cases hadd : sema_add_var ctx1 p.name false (some p.type_name)
            p.token with
        | error e => rw [hadd] at h; exact absurd h (by simp)
        | ok ctx2 =>
          rw [hadd] at h
          dsimp only [] at h
          have hj := sema_note_flow_usage_ok_join ctx _ p.token ctx1 hnote
          have ha := sema_add_var_flow ctx1 p.name false (some p.type_name)
            p.token ctx2 hadd
          have hj2 : flow_join ctx.current_flow_mode
              (flow_mode_from_type (some p.type_name)) =
              some ctx2.current_flow_mode := by rw [hj, ha]
          rw [List.map_cons, flow_fold_cons _ _ _ _ hj2]
          exact ih ctx2 ctx' h

/-- A block checked without owning a scope folds its statements'
contributed modes. -/
theorem sema_check_block_flow (ctxp ctxb : SemaContext)
    (body : Option (List Stmt))
    (h : sema_check_block ctxp body false = .ok ctxb) :
    flow_fold ctxp.current_flow_mode (body_flow_modes body) =
      some ctxb.current_flow_mode := by
  cases body with
  | none =>
    replace h : (Except.ok ctxp : Except SemaError SemaContext) =
        .ok ctxb := h
    injection h with h2
    subst h2
    rfl
  | some stmts =>
    replace h : (match sema_check_statements ctxp stmts with
        | Except.error e => (Except.error e : Except SemaError SemaContext)
        | Except.ok c2 => Except.ok c2) = Except.ok ctxb := h
    cases hs : sema_check_statements ctxp stmts with
    | error e => rw [hs] at h; exact absurd h (by simp)
    | ok c2 =>
      rw [hs] at h
      dsimp only [] at h
      injection h with h2
      subst h2
      exact sema_stmts_flow stmts ctxp _ hs

/-- A function that checks gets exactly one flow mode: the fold of its
contributions (parameters then body locals) starting from the mode
derived from its return type; the caller's flow mode is restored. -/
theorem sema_check_function_flow (ctx : SemaContext) (fn : FunctionDecl)
    (ctx' : SemaContext) (fm : FlowMode)
    (h : sema_check_function ctx fn = .ok (ctx', fm)) :
    flow_fold (flow_mode_from_type fn.return_type) (fn_flow_modes fn) =
        some fm ∧
    ctx'.current_flow_mode = ctx.current_flow_mode := by
  simp only [sema_check_function] at h
  cases hreq : sema_require_supported_type fn.return_type fn.token true with
  | error e => rw [hreq] at h; exact absurd h (by simp)
  | ok u =>
    cases u
    rw [hreq] at h
    dsimp only [] at h
    by_cases hmain : fn.name = "main" ∧ type_is_result fn.return_type
    · rw [if_pos hmain] at h
      exact absurd h (by simp)
    · rw [if_neg hmain] at h
      cases hp : sema_check_function_params
          (sema_push_scope
            { ctx with
              in_function := true
              current_flow_mode := flow_mode_from_type fn.return_type })
          fn.params with
      | error e => rw [hp] at h; exact absurd h (by simp)
      | ok ctxp =>
        rw [hp] at h
        dsimp only [] at h
        cases hb : sema_check_block ctxp fn.body false with
        | error e => rw [hb] at h; exact absurd h (by simp)
        | ok ctxb =>
          rw [hb] at h
          dsimp only [] at h
          injection h with h2
          have hfst := congrArg Prod.fst h2
          have hsnd := congrArg Prod.snd h2
          dsimp only [] at hfst hsnd
          have hp' : flow_fold (flow_mode_from_type fn.return_type)
              (fn.params.map (fun p => flow_mode_from_type (some p.type_name))) =
              some ctxp.current_flow_mode :=
            sema_check_function_params_flow fn.params _ ctxp hp
          have hb' := sema_check_block_flow ctxp ctxb fn.body hb
          refine ⟨?_, by rw [← hfst]⟩
          show flow_fold (flow_mode_from_type fn.return_type)
              (fn.params.map (fun p => flow_mode_from_type (some p.type_name)) ++
                body_flow_modes fn.body) = some fm
          rw [flow_fold_append _ _ _ _ hp', hb']
          exact congrArg some hsnd

/-- C2: `flow_join` absorbs NONE in either position and fails exactly on
a MAYBE/RESULT mix; a conflicting contribution makes
`sema_note_flow_usage` fail with the located error
`cannot mix maybe and result in the same function`, a successful one
computes `flow_join`; and for a function that checks, the single flow
mode sema computes is the `flow_join` fold of the modes contributed by
its parameters and local declarations starting from the mode derived
from the return-type prefix, with the caller's flow mode restored
afterwards. -/
theorem C2_flow_mode_discipline :
    (∀ m : FlowMode, flow_join m .NONE = some m ∧ flow_join .NONE m = some m) ∧
    (flow_join .MAYBE .RESULT = none ∧ flow_join .RESULT .MAYBE = none ∧
     flow_join .MAYBE .MAYBE = some .MAYBE ∧
     flow_join .RESULT .RESULT = some .RESULT) ∧
    (∀ (ctx : SemaContext) (mode : FlowMode) (tok : Token),
      flow_join ctx.current_flow_mode mode = none →
      sema_note_flow_usage ctx mode tok =
        .error ⟨tok, "cannot mix maybe and result in the same function"⟩) ∧
    (∀ (ctx : SemaContext) (mode : FlowMode) (tok : Token)
        (ctx' : SemaContext),
      sema_note_flow_usage ctx mode tok = .ok ctx' →
      flow_join ctx.current_flow_mode mode = some ctx'.current_flow_mode) ∧
    (∀ (ctx : SemaContext) (fn : FunctionDecl) (ctx' : SemaContext)
        (fm : FlowMode),
      sema_check_function ctx fn = .ok (ctx', fm) →
      flow_fold (flow_mode_from_type fn.return_type) (fn_flow_modes fn) =
          some fm ∧
      ctx'.current_flow_mode = ctx.current_flow_mode) := by
  refine ⟨fun m => by cases m <;> exact ⟨rfl, rfl⟩, ⟨rfl, rfl, rfl, rfl⟩,
    sema_note_flow_usage_none_err, sema_note_flow_usage_ok_join,
    sema_check_function_flow⟩

/-- Witness for C2: checking `g: (maybe[int]) -> maybe[int]` with an
`int` local from the initial context computes flow mode MAYBE, equal to
the fold of the contributions, and restores NONE; mixing RESULT into a
MAYBE context raises the error; a MAYBE contribution on a NONE context
succeeds with MAYBE. -/
theorem C2_flow_mode_discipline_witness :
    (flow_fold (flow_mode_from_type wit_flow_fn.return_type)
        (fn_flow_modes wit_flow_fn) = some .MAYBE ∧
      sema_context_init.current_flow_mode =
        sema_context_init.current_flow_mode) ∧
    sema_note_flow_usage
        { sema_context_init with current_flow_mode := .MAYBE } .RESULT
        wit_token =
      .error ⟨wit_token,
        "cannot mix maybe and result in the same function"⟩ ∧
    flow_join sema_context_init.current_flow_mode .MAYBE =
      some ({ sema_context_init with
              current_flow_mode := .MAYBE }).current_flow_mode :=
  ⟨C2_flow_mode_discipline.2.2.2.2 sema_context_init wit_flow_fn
      sema_context_init .MAYBE (by rfl),
   C2_flow_mode_discipline.2.2.1
      { sema_context_init with current_flow_mode := .MAYBE } .RESULT
      wit_token (by rfl),
   C2_flow_mode_discipline.2.2.2.1 sema_context_init .MAYBE wit_token
      { sema_context_init with current_flow_mode := .MAYBE } (by rfl)⟩

/-! ## Claim C9 -/

/-- C9: the writes emitted for a variable initializer, an assignment
statement and a tail-expression rewrite all go through an assignment
helper call `helper(&target, value);` — never a direct `*dst = value`
statement — and the helper `cg_assign_helper_for` selects is always one
of the fixed runtime helpers or `lz_assign_struct_<Name>` for a
registered struct name, with `lz_assign_ptr` as the fallback. -/
theorem C9_assignments_use_helpers :
    (∀ (ctx : CodegenContext) (ind : Nat) (mu : Bool)
        (nm tn : String) (ini : Option Expr),
      cg_emit_var_decl ctx ind mu nm tn ini =
        ([cg_indent ind ++ cg_c_type_for (some tn) ++ " " ++ nm ++
            " = \x7b0\x7d;",
          cg_indent ind ++
            cg_assign_helper_for (cg_scope_add ctx nm tn mu) (some tn) ++
            "(&" ++ nm ++ ", " ++
            cg_emit_expression (cg_scope_add ctx nm tn mu) ini ++ ");"],
         cg_scope_add ctx nm tn mu)) ∧
    (∀ (ctx : CodegenContext) (ind : Nat) (target : String) (value : Expr)
        (binding : CGVarBinding),
      cg_scope_lookup ctx target = some binding →
      cg_emit_assignment ctx ind target value =
        ([cg_indent ind ++
            cg_assign_helper_for ctx (some binding.type_name) ++
            "(&" ++ target ++ ", " ++
            cg_emit_expression ctx (some value) ++ ");"], ctx)) ∧
    (∀ (ctx : CodegenContext) (ind : Nat) (tv th : String) (e : Expr),
      cg_emit_expr_stmt ctx ind (some tv) (some th) (some e) =
        cg_indent ind ++ th ++ "(&" ++ tv ++ ", " ++
          cg_emit_expression_node ctx e ++ ");") ∧
    (∀ (ctx : CodegenContext) (tn : Option String),
      cg_assign_helper_for ctx tn ∈
          ["lz_assign_int64", "lz_assign_double", "lz_assign_bool",
           "lz_assign_string", "lz_assign_result", "lz_assign_maybe",
           "lz_assign_ptr"] ∨
        ∃ n, n ∈ ctx.structs ∧
          cg_assign_helper_for ctx tn = "lz_assign_struct_" ++ n) := by
  refine ⟨fun ctx ind mu nm tn ini => rfl, ?_, fun ctx ind tv th e => rfl, ?_⟩
  · intro ctx ind target value binding h
    simp only [cg_emit_assignment]
    rw [h]
    rfl
  · intro ctx tn
    cases tn with
    | none =>
      refine Or.inl ?_
      show "lz_assign_ptr" ∈ _
      decide
    | some s =>
      simp only [cg_assign_helper_for]
      split
      · exact Or.inl (by decide)
      split
      · exact Or.inl (by decide)
      split
      · exact Or.inl (by decide)
      split
      · exact Or.inl (by decide)
      split
      · exact Or.inl (by decide)
      split
      · exact Or.inl (by decide)
      cases hf : cg_find_struct ctx (some s) with
      | none => exact Or.inl (by decide)
      | some n =>
        refine Or.inr ⟨n, ?_, rfl⟩
        have hf' : ctx.structs.find? (fun x => x = s) = some n := hf
        exact List.mem_of_find?_eq_some hf'

/-- Witness for C9: assigning `2` to the mutable `int` binding `x` in
`wit_cg_ctx` emits exactly one `lz_assign_int64(&x, 2);` helper call. -/
theorem C9_assignments_use_helpers_witness :
    cg_emit_assignment wit_cg_ctx 1 "x"
        (.literal wit_token .INT (some "2") false) =
      ([cg_indent 1 ++ cg_assign_helper_for wit_cg_ctx (some "int") ++
          "(&" ++ "x" ++ ", " ++
          cg_emit_expression wit_cg_ctx
            (some (.literal wit_token .INT (some "2") false)) ++ ");"],
       wit_cg_ctx) :=
  C9_assignments_use_helpers.2.1 wit_cg_ctx 1 "x"
    (.literal wit_token .INT (some "2") false)
    { name := "x", type_name := "int", is_mutable := true } (by rfl)

/-! ## Claim C1 -/

/-- C1: for a function with a body whose C return type is non-void and
whose last statement is not a `return`, the emitted body is an opening
brace, the declaration `<CType> __lz_ret = \x7b0\x7d;`, the statement
lines with the tail slot `__lz_ret` and its assignment helper threaded
in, `return __lz_ret;`, and the closing brace; the block loop forwards
the tail slot only to the final statement; an `if`/`else` final
statement propagates the tail slot into both branch blocks; a final
expression statement is rewritten into `<helper>(&__lz_ret, <expr>);`;
and explicit return statements are emitted verbatim as
`return <expr>;`. -/
theorem C1_tail_return_synthesis :
    (∀ (ctx : CodegenContext) (fn : FunctionDecl) (stmts : List Stmt),
      fn.body = some stmts →
      cg_c_return_type_for fn.return_type ≠ "void" →
      cg_last_is_return stmts = false →
      cg_emit_function_body ctx fn =
        ("\x7b" ::
          ([cg_indent 1 ++ cg_c_type_for fn.return_type ++
              " __lz_ret = \x7b0\x7d;"] ++
            (cg_emit_block_stmts
              (cg_scope_add_params (cg_scope_push ctx) fn.params) 1
              (some "__lz_ret")
              (some (cg_assign_helper_for
                (cg_scope_add_params (cg_scope_push ctx) fn.params)
                fn.return_type)) stmts).1 ++
            [cg_indent 1 ++ "return __lz_ret;"]) ++ ["\x7d"],
         cg_scope_pop
           (cg_emit_block_stmts
             (cg_scope_add_params (cg_scope_push ctx) fn.params) 1
             (some "__lz_ret")
             (some (cg_assign_helper_for
               (cg_scope_add_params (cg_scope_push ctx) fn.params)
               fn.return_type)) stmts).2)) ∧
    (∀ (ctx : CodegenContext) (ind : Nat) (tv th : Option String)
        (s : Stmt),
      cg_emit_block_stmts ctx ind tv th [s] =
        cg_emit_statement ctx ind tv th s) ∧
    (∀ (ctx : CodegenContext) (ind : Nat) (tv th : Option String)
        (s s2 : Stmt) (rest : List Stmt),
      cg_emit_block_stmts ctx ind tv th (s :: s2 :: rest) =
        ((cg_emit_statement ctx ind none none s).1 ++
           (cg_emit_block_stmts (cg_emit_statement ctx ind none none s).2
             ind tv th (s2 :: rest)).1,
         (cg_emit_block_stmts (cg_emit_statement ctx ind none none s).2
           ind tv th (s2 :: rest)).2)) ∧
    (∀ (ctx : CodegenContext) (ind : Nat) (tv th : Option String)
        (tok : Token) (cond : Expr) (tb els : List Stmt),
      ctx.had_error = false →
      cg_emit_statement ctx ind tv th (.ifStmt tok cond tb (some els)) =
        (let p1 := cg_emit_block_stmts (cg_scope_push ctx) (ind + 1) tv th tb
         let p2 := cg_emit_block_stmts
           (cg_scope_push (cg_scope_pop p1.2)) (ind + 1) tv th els
         ((cg_indent ind ++ "if (" ++ cg_emit_expression_node ctx cond ++
             ") ") ::
            ((cg_indent ind ++ "\x7b") :: p1.1 ++
              [cg_indent ind ++ "\x7d"]) ++
            [cg_indent ind ++ "else"] ++
            ((cg_indent ind ++ "\x7b") :: p2.1 ++
              [cg_indent ind ++ "\x7d"]),
          cg_scope_pop p2.2))) ∧
    (∀ (ctx : CodegenContext) (ind : Nat) (tv th : String) (tok : Token)
        (e : Expr),
      ctx.had_error = false →
      cg_emit_statement ctx ind (some tv) (some th)
          (.exprStmt tok (some e)) =
        ([cg_indent ind ++ th ++ "(&" ++ tv ++ ", " ++
            cg_emit_expression_node ctx e ++ ");"], ctx)) ∧
    (∀ (ctx : CodegenContext) (ind : Nat) (tv th : Option String)
        (tok : Token) (e : Expr),
      ctx.had_error = false →
      cg_emit_statement ctx ind tv th (.returnStmt tok (some e)) =
        ([cg_indent ind ++ "return " ++ cg_emit_expression_node ctx e ++
            ";"], ctx)) := by
  refine ⟨?_, fun ctx ind tv th s => rfl, fun ctx ind tv th s s2 rest => rfl,
    ?_, ?_, ?_⟩
  · intro ctx fn stmts hb hret hlast
    have hdef : cg_emit_function_body ctx fn =
        (match fn.body with
         | none => (["\x7b", "\x7d"], ctx)
         | some stmts =>
           let ctx1 := cg_scope_push ctx
           let ctx2 := cg_scope_add_params ctx1 fn.params
           let ret_type := cg_c_return_type_for fn.return_type
           let returns_value := ret_type ≠ "void"
           let needs_tail_return := returns_value ∧ ¬cg_last_is_return stmts
           let tail_var : Option String :=
             if needs_tail_return then some "__lz_ret" else none
           let tail_helper : Option String :=
             if needs_tail_return then
               some (cg_assign_helper_for ctx2 fn.return_type)
             else none
           let decl_lines : List String :=
             if needs_tail_return then
               [cg_indent 1 ++ cg_c_type_for fn.return_type ++
                 " __lz_ret = \x7b0\x7d;"]
             else []
           let p := cg_emit_block_stmts ctx2 1 tail_var tail_helper stmts
           let ret_lines : List String :=
             if needs_tail_return then [cg_indent 1 ++ "return __lz_ret;"]
             else []
           ("\x7b" :: (decl_lines ++ p.1 ++ ret_lines) ++ ["\x7d"],
            cg_scope_pop p.2)) := rfl
    rw [hdef, hb]
    dsimp only []
    have hcond : cg_c_return_type_for fn.return_type ≠ "void" ∧
        ¬cg_last_is_return stmts = true := ⟨hret, by simp [hlast]⟩
    simp only [if_pos hcond]
  · intro ctx ind tv th tok cond tb els he
    have hdef : cg_emit_statement ctx ind tv th
        (.ifStmt tok cond tb (some els)) =
        (if ctx.had_error then ([], ctx)
         else
           let p1 := cg_emit_block_stmts (cg_scope_push ctx) (ind + 1) tv th
             tb
           let p2 := cg_emit_block_stmts
             (cg_scope_push (cg_scope_pop p1.2)) (ind + 1) tv th els
           ((cg_indent ind ++ "if (" ++ cg_emit_expression_node ctx cond ++
               ") ") ::
              ((cg_indent ind ++ "\x7b") :: p1.1 ++
                [cg_indent ind ++ "\x7d"]) ++
              [cg_indent ind ++ "else"] ++
              ((cg_indent ind ++ "\x7b") :: p2.1 ++
                [cg_indent ind ++ "\x7d"]),
            cg_scope_pop p2.2)) := rfl
    rw [hdef, if_neg (by simp [he])]
  · intro ctx ind tv th tok e he
    have hdef : cg_emit_statement ctx ind (some tv) (some th)
        (.exprStmt tok (some e)) =
        (if ctx.had_error then ([], ctx)
         else ([cg_emit_expr_stmt ctx ind (some tv) (some th) (some e)],
           ctx)) := rfl
    rw [hdef, if_neg (by simp [he])]
    rfl
  · intro ctx ind tv th tok e he
    have hdef : cg_emit_statement ctx ind tv th (.returnStmt tok (some e)) =
        (if ctx.had_error then ([], ctx)
         else ([cg_emit_return_line ctx ind (some e)], ctx)) := rfl
    rw [hdef, if_neg (by simp [he])]
    rfl

/-- Witness for C1: the scenario-2 function `is_positive`, whose body
ends in an `if`/`else` of expression statements, gets the `__lz_ret`
declaration, the tail slot threaded into the statement lines, and the
synthesized `return __lz_ret;`. -/
theorem C1_tail_return_synthesis_witness :
    cg_emit_function_body cg_context_init wit_is_positive =
      ("\x7b" ::
        ([cg_indent 1 ++ cg_c_type_for wit_is_positive.return_type ++
            " __lz_ret = \x7b0\x7d;"] ++
          (cg_emit_block_stmts
            (cg_scope_add_params (cg_scope_push cg_context_init)
              wit_is_positive.params) 1
            (some "__lz_ret")
            (some (cg_assign_helper_for
              (cg_scope_add_params (cg_scope_push cg_context_init)
                wit_is_positive.params)
              wit_is_positive.return_type))
            [.ifStmt wit_token
              (.binary wit_token .GT (.identifier wit_token "x")
                (.literal wit_token .INT (some "0") false))
              [.exprStmt wit_token
                (some (.literal wit_token .BOOL none true))]
              (some [.exprStmt wit_token
                (some (.literal wit_token .BOOL none false))])]).1 ++
          [cg_indent 1 ++ "return __lz_ret;"]) ++ ["\x7d"],
       cg_scope_pop
         (cg_emit_block_stmts
           (cg_scope_add_params (cg_scope_push cg_context_init)
             wit_is_positive.params) 1
           (some "__lz_ret")
           (some (cg_assign_helper_for
             (cg_scope_add_params (cg_scope_push cg_context_init)
               wit_is_positive.params)
             wit_is_positive.return_type))
           [.ifStmt wit_token
             (.binary wit_token .GT (.identifier wit_token "x")
               (.literal wit_token .INT (some "0") false))
             [.exprStmt wit_token
               (some (.literal wit_token .BOOL none true))]
             (some [.exprStmt wit_token
               (some (.literal wit_token .BOOL none false))])]).2) :=
  C1_tail_return_synthesis.1 cg_context_init wit_is_positive
    [.ifStmt wit_token
      (.binary wit_token .GT (.identifier wit_token "x")
        (.literal wit_token .INT (some "0") false))
      [.exprStmt wit_token (some (.literal wit_token .BOOL none true))]
      (some [.exprStmt wit_token
        (some (.literal wit_token .BOOL none false))])]
    (by rfl) (by decide) (by rfl)

end Lazylang
